import Mathlib

/-
Verification development for the Anti-Raid `settings` crate.

The Rust sources embedded here are `src/value.rs` (the dynamic `Value`
model), `src/types.rs` (schema / error types) and `src/cfg.rs` (the
validation engine `_parse_value` / `_validate_value` and the CRUD
orchestrators `settings_view` / `settings_create`).

Modelling conventions:
 * `i64` is modelled as `Int`; the bitwise `&` / `|` of Rust's two's
   complement `i64` are modelled by `Int.land` / `Int.lor` (the sign
   extension bitwise operations on mathematical integers, which agree
   with the 64-bit operations on every value representable in `i64`).
 * `usize` lengths are `Nat`; Rust's `str::len` (UTF-8 byte length) is
   `String.utf8ByteSize`.
 * `f64` is modelled abstractly by `F64`: a finite value carries its
   exact numeric value as a rational, and the non-finite values are the
   three tags `inf`, `neginf`, `nan`.  `serde_json::Number::from_f64`
   returns `Option.none` exactly on the non-finite tags.
 * external library functions (chrono parsers and formatters, the uuid
   parser, `serde_json` serialization and parsing, `str::parse` for the
   primitive types) are modelled by executable Lean functions marked
   `Modelled:` in their doc comments.  No claim in this development
   depends on a fringe behaviour of these models; where a claim needs a
   concrete evaluation the inputs are plain ASCII and well within the
   models' faithful range.
 * `indexmap::IndexMap<String, Value>` is modelled as an association
   list `IndexMap := List (String × Value)` with the insertion-order
   operations `swap_remove` (swap the removed slot with the last entry,
   then pop), `insert_key` (replace in place, else append) and
   `get_key`.  A real `IndexMap` always has pairwise distinct keys;
   theorems about backend-supplied rows carry that as a `Nodup`
   hypothesis.
 * the `async` backend trait objects are modelled as optional pure
   functions returning `Except SettingsError`; each orchestrator awaits
   exactly one backend call, so this is a faithful functional model.
 * `cfg.rs` constructs `Value::Json(..)` although the `value.rs` in
   this snapshot does not list a `Json` variant (the richer variant of
   the enum does); the model includes the constructor, mapping it to
   the carried JSON value, since `cfg.rs` requires it.
-/

namespace AntiRaid

/-- Naive date-time (chrono `NaiveDateTime`): a civil date and a
time-of-day, no timezone.  `TimestampTz` values store their UTC naive
fields in the same structure. -/
structure NaiveDT where
  year : Int
  month : Nat
  day : Nat
  hour : Nat
  minute : Nat
  second : Nat
  nano : Nat
deriving DecidableEq

/-- Modelled: Rust `f64`.  A finite double is abstracted by its exact
rational value; the non-finite doubles are the three tags. -/
inductive F64 where
  | finite (q : Rat)
  | inf
  | neginf
  | nan
deriving DecidableEq

/-- Modelled: `serde_json::Number`.  `ofInt` is the integer flavour
produced by `Number::from(i64)`, `ofFloat` the float flavour produced
by `Number::from_f64` on a finite double. -/
inductive JNum where
  | ofInt (i : Int)
  | ofFloat (q : Rat)
deriving DecidableEq

/-- Modelled: `serde_json::Value`.  Object fields are kept in insertion
order (the `preserve_order` feature of serde_json). -/
inductive JsonValue where
  | null
  | bool (b : Bool)
  | num (n : JNum)
  | str (s : String)
  | arr (elems : List JsonValue)
  | obj (fields : List (String × JsonValue))

/-- Modelled: `serde_json::Number::from_f64`, which returns `None`
exactly when the double is not finite. -/
def jnum_from_f64 : F64 → Option JNum
  | F64.finite q => Option.some (JNum.ofFloat q)
  | F64.inf => Option.none
  | F64.neginf => Option.none
  | F64.nan => Option.none

/-- The dynamic value type of `src/value.rs` (`enum Value`).  Rust
variant names: Uuid, String, Timestamp, TimestampTz, Interval, Integer,
Float, Boolean, List, Map, None — plus the `Json` variant required by
`cfg.rs` (see the header comment).  A uuid is its 128-bit value, an
interval is its whole number of seconds (every interval this crate
builds is a whole number of seconds). -/
inductive Value where
  | uuid (u : Nat)
  | str (s : String)
  | timestamp (t : NaiveDT)
  | timestamptz (t : NaiveDT)
  | interval (secs : Int)
  | integer (i : Int)
  | float (f : F64)
  | boolean (b : Bool)
  | list (elems : List Value)
  | map (entries : List (String × Value))
  | json (j : JsonValue)
  | none

/-- OperationType from `src/types.rs`. -/
inductive OperationType where
  | View
  | Create
  | Update
  | Delete
deriving DecidableEq

/-- SettingsError from `src/types.rs`, field for field.  Free-text
fields carry the strings the Rust code builds; where a string comes
from an external library error's `Display` it is modelled. -/
inductive SettingsError where
  | OperationNotSupported (operation : OperationType)
  | Generic (message : String) (src : String) (typ : String)
  | SchemaTypeValidationError (column : String) (expected_type : String) (got_type : String)
  | SchemaNullValueValidationError (column : String)
  | SchemaCheckValidationError (column : String) (check : String) (error : String) (accepted_range : String)
  | MissingOrInvalidField (field : String) (src : String)
  | RowExists (column_id : String) (count : Int)
  | RowDoesNotExist (column_id : String)
  | MaximumCountReached (max : Nat) (current : Nat)

/-- InnerColumnType from `src/types.rs`.  The Rust `String` variant is
spelled `Str` here (the Lean name `String` is taken); `BitFlag.values`
is the insertion-ordered `IndexMap<String, i64>`. -/
inductive InnerColumnType where
  | Uuid
  | Str (min_length : Option Nat) (max_length : Option Nat) (allowed_values : List String) (kind : String)
  | Timestamp
  | TimestampTz
  | Interval
  | Integer
  | Float
  | BitFlag (values : List (String × Int))
  | Boolean
  | Json (max_bytes : Option Nat)

/-- ColumnType from `src/types.rs`. -/
inductive ColumnType where
  | Scalar (inner : InnerColumnType)
  | Array (inner : InnerColumnType)

/-- ColumnType::new_scalar. -/
def ColumnType.new_scalar (inner : InnerColumnType) : ColumnType :=
  ColumnType.Scalar inner

/-- ColumnSuggestion from `src/types.rs`. -/
inductive ColumnSuggestion where
  | Static (suggestions : List String)
  | NoSuggestions

/-- Column from `src/types.rs`. -/
structure Column where
  id : String
  name : String
  description : String
  column_type : ColumnType
  nullable : Bool
  suggestions : ColumnSuggestion
  secret : Bool
  ignored_for : List OperationType

/-- The ordered string-keyed mapping `indexmap::IndexMap<String, Value>`. -/
abbrev IndexMap := List (String × Value)

/-- The four optional backend capabilities of a `Setting`
(`SettingOperations` in `src/types.rs`).  Each `async` trait method is
modelled as a pure function returning `Except`. -/
structure SettingOperations (T : Type) where
  view : Option (T → IndexMap → Except SettingsError (List IndexMap))
  create : Option (T → IndexMap → Except SettingsError IndexMap)
  update : Option (T → IndexMap → Except SettingsError IndexMap)
  delete : Option (T → Value → Except SettingsError Unit)

/-- Setting from `src/types.rs`. -/
structure Setting (T : Type) where
  id : String
  name : String
  description : String
  primary_key : String
  title_template : String
  columns : List Column
  operations : SettingOperations T

/- ---------------------------------------------------------------
   IndexMap operations (models of indexmap's swap_remove / insert / get)
   --------------------------------------------------------------- -/

/-- Worker for `swap_remove`: find the entry with key `k`; on a hit the
vacated slot receives the last entry of the map and the (old) last slot
is popped — exactly indexmap's `swap_remove` order semantics. -/
def swap_remove_entry : IndexMap → String → Option (Value × IndexMap)
  | [], _ => Option.none
  | e :: rest, k =>
    if e.1 == k then
      Option.some (e.2,
        match rest.getLast? with
        | Option.none => []
        | Option.some last => last :: rest.dropLast)
    else
      match swap_remove_entry rest k with
      | Option.none => Option.none
      | Option.some (v, rest1) => Option.some (v, e :: rest1)

/-- Modelled: `IndexMap::swap_remove`, returning the removed value (if
any) together with the map after the mutation. -/
def swap_remove (m : IndexMap) (k : String) : Option Value × IndexMap :=
  match swap_remove_entry m k with
  | Option.none => (Option.none, m)
  | Option.some (v, m1) => (Option.some v, m1)

/-- Modelled: `IndexMap::insert` — replace in place when the key is
present, else append at the end. -/
def insert_key (m : IndexMap) (k : String) (v : Value) : IndexMap :=
  if m.any (fun e => e.1 == k) then
    m.map (fun e => if e.1 == k then (k, v) else e)
  else m ++ [(k, v)]

/-- Modelled: `IndexMap::get`. -/
def get_key (m : IndexMap) (k : String) : Option Value :=
  (m.find? (fun e => e.1 == k)).map (fun e => e.2)

/-- The key list of a map, in order. -/
def im_keys (m : IndexMap) : List String :=
  m.map Prod.fst

/- ---------------------------------------------------------------
   Modelled primitive parsers (Rust `str::parse` impls)
   --------------------------------------------------------------- -/

/-- Numeric value of a decimal digit list (most significant first). -/
def digits_to_nat (ds : List Char) : Nat :=
  ds.foldl (fun a c => a * 10 + (c.toNat - 48)) 0

/-- Modelled: Rust `str::parse::<i64>` — optional sign, decimal digits,
64-bit signed range check; error strings are the `ParseIntError`
display texts. -/
def parse_i64 (s : String) : Except String Int :=
  match s.data with
  | [] => Except.error ("cannot parse integer from empty string")
  | cs =>
    let signed : Bool × List Char :=
      match cs with
      | '-' :: rest => (true, rest)
      | '+' :: rest => (false, rest)
      | rest => (false, rest)
    if signed.2 = [] then Except.error ("invalid digit found in string")
    else if signed.2.all Char.isDigit then
      let n : Int := Int.ofNat (digits_to_nat signed.2)
      let v : Int := if signed.1 then -n else n
      if v < -(2 ^ 63) then Except.error ("number too small to fit in target type")
      else if v > 2 ^ 63 - 1 then Except.error ("number too large to fit in target type")
      else Except.ok v
    else Except.error ("invalid digit found in string")

/-- Modelled: Rust `str::parse::<bool>` — exactly "true" or "false". -/
def parse_bool (s : String) : Except String Bool :=
  if s = "true" then Except.ok true
  else if s = "false" then Except.ok false
  else Except.error ("provided string was not `true` or `false`")

/-- Value of a hex digit, if any. -/
def hex_val (c : Char) : Option Nat :=
  if c.isDigit then Option.some (c.toNat - 48)
  else if 'a' ≤ c && c ≤ 'f' then Option.some (c.toNat - 87)
  else if 'A' ≤ c && c ≤ 'F' then Option.some (c.toNat - 55)
  else Option.none

/-- Value of a hex digit list, if all chars are hex digits. -/
def hex_digits_to_nat (ds : List Char) : Option Nat :=
  ds.foldl
    (fun a c =>
      match a, hex_val c with
      | Option.some n, Option.some d => Option.some (n * 16 + d)
      | _, _ => Option.none)
    (Option.some 0)

/-- Modelled: `str::parse::<uuid::Uuid>` — accepts the hyphenated
8-4-4-4-12 form and the simple 32-hex-digit form (the braced and urn
forms of the uuid crate are not modelled; no claim touches them). -/
def parse_uuid (s : String) : Except String Nat :=
  let groups := (s.splitOn "-").map String.data
  match groups with
  | [a, b, c, d, e] =>
    if a.length = 8 && b.length = 4 && c.length = 4 && d.length = 4 && e.length = 12 then
      match hex_digits_to_nat (a ++ b ++ c ++ d ++ e) with
      | Option.some n => Except.ok n
      | Option.none => Except.error ("invalid character: expected a hex digit")
    else Except.error ("invalid group length in UUID string")
  | [a] =>
    if a.length = 32 then
      match hex_digits_to_nat a with
      | Option.some n => Except.ok n
      | Option.none => Except.error ("invalid character: expected a hex digit")
    else Except.error ("invalid length for a UUID string")
  | _ => Except.error ("invalid group count in UUID string")

/- ---------------------------------------------------------------
   Modelled civil-calendar arithmetic (chrono)
   --------------------------------------------------------------- -/

/-- Proleptic-Gregorian leap year test. -/
def is_leap_year (y : Int) : Bool :=
  (y % 4 == 0 && y % 100 != 0) || (y % 400 == 0)

/-- Days in a month of the proleptic Gregorian calendar. -/
def days_in_month (y : Int) (m : Nat) : Nat :=
  if m = 2 then (if is_leap_year y then 29 else 28)
  else if m = 4 || m = 6 || m = 9 || m = 11 then 30
  else 31

/-- Days since the civil epoch 1970-01-01 of the date y-m-d (the
standard civil-from-days algorithm, floor division throughout). -/
def days_from_civil (y : Int) (m : Nat) (d : Nat) : Int :=
  let y2 : Int := if m ≤ 2 then y - 1 else y
  let era : Int := Int.fdiv y2 400
  let yoe : Int := y2 - era * 400
  let mp : Int := Int.emod (Int.ofNat m + 9) 12
  let doy : Int := Int.fdiv (153 * mp + 2) 5 + (Int.ofNat d - 1)
  let doe : Int := yoe * 365 + Int.fdiv yoe 4 - Int.fdiv yoe 100 + doy
  era * 146097 + doe - 719468

/-- Inverse of `days_from_civil`: (year, month, day) of a day number. -/
def civil_from_days (z0 : Int) : Int × Nat × Nat :=
  let z := z0 + 719468
  let era : Int := Int.fdiv z 146097
  let doe : Int := z - era * 146097
  let yoe : Int := Int.fdiv (doe - Int.fdiv doe 1460 + Int.fdiv doe 36524 - Int.fdiv doe 146096) 365
  let y : Int := yoe + era * 400
  let doy : Int := doe - (365 * yoe + Int.fdiv yoe 4 - Int.fdiv yoe 100)
  let mp : Int := Int.fdiv (5 * doy + 2) 153
  let d : Int := doy - Int.fdiv (153 * mp + 2) 5 + 1
  let m : Int := if mp < 10 then mp + 3 else mp - 9
  (if m ≤ 2 then y + 1 else y, m.toNat, d.toNat)

/-- Seconds since the Unix epoch of a naive date-time (ignoring nanos). -/
def to_epoch_secs (t : NaiveDT) : Int :=
  days_from_civil t.year t.month t.day * 86400
    + Int.ofNat (t.hour * 3600 + t.minute * 60 + t.second)

/-- Naive date-time of a number of seconds since the Unix epoch. -/
def from_epoch_secs (n : Int) (nano : Nat) : NaiveDT :=
  let days : Int := Int.fdiv n 86400
  let rem : Nat := (Int.emod n 86400).toNat
  let ymd := civil_from_days days
  { year := ymd.1, month := ymd.2.1, day := ymd.2.2,
    hour := rem / 3600, minute := rem / 60 % 60, second := rem % 60, nano := nano }

/- ---------------------------------------------------------------
   Modelled chrono parsers
   --------------------------------------------------------------- -/

/-- Expect one specific char at the head of the stream. -/
def expect_char (c : Char) : List Char → Option (List Char)
  | [] => Option.none
  | x :: rest => if x = c then Option.some rest else Option.none

/-- Read a run of 1 or 2 decimal digits (chrono's flexible numeric
field width), returning its value and the rest. -/
def read_num_field (cs : List Char) : Option (Nat × List Char) :=
  let sp := cs.span Char.isDigit
  if sp.1.length = 1 || sp.1.length = 2 then Option.some (digits_to_nat sp.1, sp.2)
  else Option.none

/-- Read the date part `%Y-%m-%d` (year of one or more digits with an
optional leading minus sign, then month and day), returning the fields
and the rest of the stream. -/
def read_date (cs : List Char) : Option (Int × Nat × Nat × List Char) := do
  let signed : Bool × List Char :=
    match cs with
    | '-' :: rest => (true, rest)
    | rest => (false, rest)
  let spy := signed.2.span Char.isDigit
  if spy.1.length = 0 then failure
  let yabs : Int := Int.ofNat (digits_to_nat spy.1)
  let y : Int := if signed.1 then -yabs else yabs
  let cs1 ← expect_char '-' spy.2
  let mo ← read_num_field cs1
  let cs2 ← expect_char '-' mo.2
  let d ← read_num_field cs2
  if 1 ≤ mo.1 && mo.1 ≤ 12 && 1 ≤ d.1 && d.1 ≤ days_in_month y mo.1 then
    Option.some (y, mo.1, d.1, d.2)
  else failure

/-- Read the time part `%H:%M:%S`, returning the fields and the rest. -/
def read_time (cs : List Char) : Option (Nat × Nat × Nat × List Char) := do
  let h ← read_num_field cs
  let cs1 ← expect_char ':' h.2
  let mi ← read_num_field cs1
  let cs2 ← expect_char ':' mi.2
  let se ← read_num_field cs2
  if h.1 ≤ 23 && mi.1 ≤ 59 && se.1 ≤ 59 then Option.some (h.1, mi.1, se.1, se.2)
  else failure

/-- Modelled: `chrono::NaiveDateTime::parse_from_str(s, "%Y-%m-%d %H:%M:%S")`.
The whole input must be consumed; calendar validity is enforced.  The
error text is a fixed modelled message (`cfg.rs` only forwards it). -/
def parse_timestamp (s : String) : Except String NaiveDT :=
  match (do
      let d ← read_date s.data
      let cs1 ← expect_char ' ' d.2.2.2
      let t ← read_time cs1
      if t.2.2.2 = [] then
        Option.some
          { year := d.1, month := d.2.1, day := d.2.2.1,
            hour := t.1, minute := t.2.1, second := t.2.2.1, nano := 0 }
      else Option.none : Option NaiveDT) with
  | Option.some t => Except.ok t
  | Option.none => Except.error ("input does not match the timestamp format")

/-- Read an optional fractional-second field `.digits`, returning the
nanosecond value and the rest. -/
def read_frac (cs : List Char) : Nat × List Char :=
  match cs with
  | '.' :: rest =>
    let sp := rest.span Char.isDigit
    if sp.1.length = 0 then (0, cs)
    else
      let digits9 := (sp.1 ++ List.replicate 9 '0').take 9
      (digits_to_nat digits9, sp.2)
  | _ => (0, cs)

/-- Read `HH:MM` as an offset magnitude in seconds. -/
def read_hhmm (cs : List Char) : Option (Int × List Char) := do
  let h ← read_num_field cs
  let cs1 ← expect_char ':' h.2
  let mi ← read_num_field cs1
  if h.1 ≤ 23 && mi.1 ≤ 59 then
    Option.some (Int.ofNat (h.1 * 3600 + mi.1 * 60), mi.2)
  else failure

/-- Read an RFC 3339 offset (`Z`/`z` or `±HH:MM`), returning the offset
in seconds and the rest. -/
def read_offset (cs : List Char) : Option (Int × List Char) :=
  match cs with
  | 'Z' :: rest => Option.some (0, rest)
  | 'z' :: rest => Option.some (0, rest)
  | '+' :: rest => do
    let t ← read_hhmm rest
    Option.some (t.1, t.2)
  | '-' :: rest => do
    let t ← read_hhmm rest
    Option.some (-t.1, t.2)
  | _ => Option.none

/-- Modelled: `chrono::DateTime::parse_from_rfc3339` followed by the
conversion to `DateTime<Utc>` that `cfg.rs` performs: the result is the
UTC naive date-time (naive fields minus the offset). -/
def parse_rfc3339_utc (s : String) : Except String NaiveDT :=
  match (do
      let d ← read_date s.data
      let cs1 ←
        match d.2.2.2 with
        | 'T' :: rest => Option.some rest
        | 't' :: rest => Option.some rest
        | _ => Option.none
      let t ← read_time cs1
      let fr := read_frac t.2.2.2
      let off ← read_offset fr.2
      if off.2 = [] then
        let naive : NaiveDT :=
          { year := d.1, month := d.2.1, day := d.2.2.1,
            hour := t.1, minute := t.2.1, second := t.2.2.1, nano := fr.1 }
        Option.some (from_epoch_secs (to_epoch_secs naive - off.1) fr.1)
      else Option.none : Option NaiveDT) with
  | Option.some t => Except.ok t
  | Option.none => Except.error ("input does not match the RFC 3339 format")

/- ---------------------------------------------------------------
   parse_duration_string (from src/cfg.rs, lines 5-92)
   --------------------------------------------------------------- -/

/-- Unit from `src/cfg.rs`. -/
inductive Unit64 where
  | Seconds
  | Minutes
  | Hours
  | Days
  | Weeks
deriving DecidableEq

/-- Unit::to_seconds. -/
def Unit64.to_seconds : Unit64 → Nat
  | Unit64.Seconds => 1
  | Unit64.Minutes => 60
  | Unit64.Hours => 3600
  | Unit64.Days => 86400
  | Unit64.Weeks => 604800

/-- TryFrom<&str> for Unit (the shorthand table of `src/cfg.rs`). -/
def unit_try_from (s : String) : Except String Unit64 :=
  if s = "seconds" || s = "second" || s = "secs" || s = "sec" || s = "s" then Except.ok Unit64.Seconds
  else if s = "minutes" || s = "minute" || s = "mins" || s = "min" || s = "m" then Except.ok Unit64.Minutes
  else if s = "hours" || s = "hour" || s = "hrs" || s = "hr" || s = "h" then Except.ok Unit64.Hours
  else if s = "days" || s = "day" || s = "d" then Except.ok Unit64.Days
  else if s = "weeks" || s = "week" || s = "w" then Except.ok Unit64.Weeks
  else Except.error ("Invalid unit")

/-- parse_duration_string from `src/cfg.rs`: accumulate digits into a
`u64` (release-mode wrapping, hence the mod 2^64) and every other
non-space char into the unit string. -/
def parse_duration_string (s : String) : Except String (Nat × Unit64) :=
  let acc := s.data.foldl
    (fun (p : Nat × List Char) c =>
      if c.isDigit then ((p.1 * 10 + (c.toNat - 48)) % 2 ^ 64, p.2)
      else if c = ' ' then p
      else (p.1, p.2 ++ [c]))
    (0, [])
  match unit_try_from (String.mk acc.2) with
  | Except.error e => Except.error e
  | Except.ok u => Except.ok (acc.1, u)

/-- parse_duration_string_to_chrono_duration from `src/cfg.rs`: the
`u64` product wraps (release mode) and `chrono::Duration::from_std`
fails beyond chrono's maximum of i64::MAX milliseconds. -/
def parse_duration_string_to_chrono_duration (s : String) : Except String Int :=
  match parse_duration_string s with
  | Except.error e => Except.error e
  | Except.ok (n, u) =>
    let secs : Nat := (n * u.to_seconds) % 2 ^ 64
    if secs ≤ 9223372036854775 then Except.ok (Int.ofNat secs)
    else Except.error ("Source duration value is out of range for the target type")

/- ---------------------------------------------------------------
   Modelled formatters (chrono / uuid Display, serde_json to_string)
   --------------------------------------------------------------- -/

/-- Zero-pad the decimal form of a number to a width. -/
def pad_num (width : Nat) (n : Nat) : String :=
  let s := toString n
  String.mk (List.replicate (width - s.length) '0') ++ s

/-- Modelled: chrono `NaiveDateTime` Display — `%Y-%m-%d %H:%M:%S` with
a fractional part of 3, 6 or 9 digits when the nanoseconds are not 0. -/
def naive_dt_to_string (t : NaiveDT) : String :=
  let ys := if t.year < 0 then "-" ++ pad_num 4 t.year.natAbs else pad_num 4 t.year.toNat
  let base := ys ++ "-" ++ pad_num 2 t.month ++ "-" ++ pad_num 2 t.day ++ " "
    ++ pad_num 2 t.hour ++ ":" ++ pad_num 2 t.minute ++ ":" ++ pad_num 2 t.second
  if t.nano = 0 then base
  else if t.nano % 1000000 = 0 then base ++ "." ++ pad_num 3 (t.nano / 1000000)
  else if t.nano % 1000 = 0 then base ++ "." ++ pad_num 6 (t.nano / 1000)
  else base ++ "." ++ pad_num 9 t.nano

/-- Modelled: chrono `DateTime<Utc>` Display — the naive part followed
by " UTC". -/
def tz_dt_to_string (t : NaiveDT) : String :=
  naive_dt_to_string t ++ " UTC"

/-- Lower-hex form of a number, zero-padded to a width. -/
def hex_pad (width : Nat) (n : Nat) : String :=
  let s := String.mk (Nat.toDigits 16 n)
  String.mk (List.replicate (width - s.length) '0') ++ s

/-- Modelled: uuid Display — hyphenated lowercase 8-4-4-4-12. -/
def uuid_to_string (u : Nat) : String :=
  hex_pad 8 (u / 2 ^ 96) ++ "-" ++ hex_pad 4 (u / 2 ^ 80 % 2 ^ 16) ++ "-"
    ++ hex_pad 4 (u / 2 ^ 64 % 2 ^ 16) ++ "-" ++ hex_pad 4 (u / 2 ^ 48 % 2 ^ 16) ++ "-"
    ++ hex_pad 12 (u % 2 ^ 48)

/-- Modelled: the shortest-representation float formatter of serde_json
(ryu), abstracted: integral doubles print with a ".0" suffix, others
with up to 17 fractional digits, trailing zeros trimmed. -/
def float_fmt (q : Rat) : String :=
  let sign := if q.num < 0 then "-" else ""
  let a := q.num.natAbs
  let d := q.den
  if a % d = 0 then sign ++ toString (a / d) ++ ".0"
  else
    let scaled := a % d * 10 ^ 17 / d
    let padded := pad_num 17 scaled
    let trimmed := String.mk (padded.data.reverse.dropWhile (fun c => c = '0')).reverse
    sign ++ toString (a / d) ++ "." ++ trimmed

/-- Display of a `JNum` in serde_json's serialization. -/
def jnum_to_string : JNum → String
  | JNum.ofInt i => toString i
  | JNum.ofFloat q => float_fmt q

/-- Modelled: serde_json string escaping (compact form). -/
def escape_json_char (c : Char) : String :=
  if c = '"' then "\\\""
  else if c = '\\' then "\\\\"
  else if c = '\n' then "\\n"
  else if c = '\r' then "\\r"
  else if c = '\t' then "\\t"
  else if c.toNat = 8 then "\\b"
  else if c.toNat = 12 then "\\f"
  else if c.toNat < 32 then "\\u" ++ hex_pad 4 c.toNat
  else String.mk [c]

/-- Quote and escape a string for JSON output. -/
def json_quote (s : String) : String :=
  "\"" ++ String.join (s.data.map escape_json_char) ++ "\""

mutual
/-- Modelled: `serde_json::to_string` (compact serialization). -/
def json_to_string : JsonValue → String
  | JsonValue.null => "null"
  | JsonValue.bool b => if b then "true" else "false"
  | JsonValue.num n => jnum_to_string n
  | JsonValue.str s => json_quote s
  | JsonValue.arr l => "[" ++ String.intercalate "," (json_list_strings l) ++ "]"
  | JsonValue.obj fs => "\x7b" ++ String.intercalate "," (json_obj_strings fs) ++ "\x7d"

/-- Serializations of the elements of a JSON array, in order. -/
def json_list_strings : List JsonValue → List String
  | [] => []
  | v :: rest => json_to_string v :: json_list_strings rest

/-- Serializations of the fields of a JSON object, in order. -/
def json_obj_strings : List (String × JsonValue) → List String
  | [] => []
  | f :: rest => (json_quote f.1 ++ ":" ++ json_to_string f.2) :: json_obj_strings rest
end

mutual
/-- Value::to_json from `src/value.rs`: conversion to the serde_json
representation.  Floats go through `Number::from_f64(..).unwrap_or(0)`;
the `Json` variant (required by `cfg.rs`, see header) carries its JSON
value through unchanged. -/
def Value.to_json : Value → JsonValue
  | Value.uuid u => JsonValue.str (uuid_to_string u)
  | Value.str s => JsonValue.str s
  | Value.timestamp t => JsonValue.str (naive_dt_to_string t)
  | Value.timestamptz t => JsonValue.str (tz_dt_to_string t)
  | Value.integer i => JsonValue.num (JNum.ofInt i)
  | Value.interval secs => JsonValue.num (JNum.ofInt secs)
  | Value.float f => JsonValue.num ((jnum_from_f64 f).getD (JNum.ofInt 0))
  | Value.boolean b => JsonValue.bool b
  | Value.list l => JsonValue.arr (Value.to_json_list l)
  | Value.map m => JsonValue.obj (Value.to_json_pairs m)
  | Value.json j => j
  | Value.none => JsonValue.null

/-- JSON forms of a list of values, in order. -/
def Value.to_json_list : List Value → List JsonValue
  | [] => []
  | v :: rest => Value.to_json v :: Value.to_json_list rest

/-- JSON forms of the entries of a map, in order. -/
def Value.to_json_pairs : List (String × Value) → List (String × JsonValue)
  | [] => []
  | e :: rest => (e.1, Value.to_json e.2) :: Value.to_json_pairs rest
end

mutual
/-- Value::from_json from `src/value.rs`.  A JSON string is first tried
as a `%Y-%m-%d %H:%M:%S` timestamp, then as RFC 3339, and only then
kept as a string; a number is an Integer when it is i64-flavoured and a
Float otherwise. -/
def Value.from_json : JsonValue → Value
  | JsonValue.str s =>
    match parse_timestamp s with
    | Except.ok t => Value.timestamp t
    | Except.error _ =>
      match parse_rfc3339_utc s with
      | Except.ok t => Value.timestamptz t
      | Except.error _ => Value.str s
  | JsonValue.num (JNum.ofInt i) => Value.integer i
  | JsonValue.num (JNum.ofFloat q) => Value.float (F64.finite q)
  | JsonValue.bool b => Value.boolean b
  | JsonValue.arr l => Value.list (Value.from_json_list l)
  | JsonValue.obj fs => Value.map (Value.from_json_pairs fs)
  | JsonValue.null => Value.none

/-- from_json over the elements of a JSON array, in order. -/
def Value.from_json_list : List JsonValue → List Value
  | [] => []
  | v :: rest => Value.from_json v :: Value.from_json_list rest

/-- from_json over the fields of a JSON object, in order. -/
def Value.from_json_pairs : List (String × JsonValue) → List (String × Value)
  | [] => []
  | f :: rest => (f.1, Value.from_json f.2) :: Value.from_json_pairs rest
end

/- ---------------------------------------------------------------
   Modelled Debug formatting (format!("{:?}", v) on Value)
   --------------------------------------------------------------- -/

/-- Modelled: Rust string Debug escaping (quotes and escapes). -/
def debug_quote (s : String) : String :=
  json_quote s

mutual
/-- Modelled: the derived `Debug` form of a `Value` (used by the Rust
code only inside `got_type: format!("{:?}", v)` error fields; no claim
inspects these strings). -/
def value_debug : Value → String
  | Value.uuid u => "Uuid(" ++ uuid_to_string u ++ ")"
  | Value.str s => "String(" ++ debug_quote s ++ ")"
  | Value.timestamp t => "Timestamp(" ++ naive_dt_to_string t ++ ")"
  | Value.timestamptz t => "TimestampTz(" ++ tz_dt_to_string t ++ ")"
  | Value.interval secs => "Interval(TimeDelta(" ++ toString secs ++ "s))"
  | Value.integer i => "Integer(" ++ toString i ++ ")"
  | Value.float f =>
    match f with
    | F64.finite q => "Float(" ++ float_fmt q ++ ")"
    | F64.inf => "Float(inf)"
    | F64.neginf => "Float(-inf)"
    | F64.nan => "Float(NaN)"
  | Value.boolean b => if b then "Boolean(true)" else "Boolean(false)"
  | Value.list l => "List([" ++ String.intercalate ", " (value_debug_list l) ++ "])"
  | Value.map m => "Map(\x7b" ++ String.intercalate ", " (value_debug_pairs m) ++ "\x7d)"
  | Value.json j => "Json(" ++ json_to_string j ++ ")"
  | Value.none => "None"

/-- Debug forms of a list of values. -/
def value_debug_list : List Value → List String
  | [] => []
  | v :: rest => value_debug v :: value_debug_list rest

/-- Debug forms of map entries. -/
def value_debug_pairs : List (String × Value) → List String
  | [] => []
  | e :: rest => (debug_quote e.1 ++ ": " ++ value_debug e.2) :: value_debug_pairs rest
end

/- ---------------------------------------------------------------
   Modelled serde_json parser (fuel-based recursive descent)
   --------------------------------------------------------------- -/

/-- Skip JSON whitespace. -/
def skip_ws (cs : List Char) : List Char :=
  cs.dropWhile (fun c => c = ' ' || c = '\t' || c = '\n' || c = '\r')

/-- Parse a JSON string body after the opening quote, returning the
unescaped chars and the rest after the closing quote. -/
def parse_json_string_body (fuel : Nat) (cs : List Char) : Option (List Char × List Char) :=
  match fuel, cs with
  | 0, _ => Option.none
  | _, [] => Option.none
  | fuel + 1, c :: rest =>
    if c = '"' then Option.some ([], rest)
    else if c = '\\' then
      match rest with
      | [] => Option.none
      | e :: rest1 =>
        let decoded : Option (Char × List Char) :=
          if e = '"' then Option.some ('"', rest1)
          else if e = '\\' then Option.some ('\\', rest1)
          else if e = '/' then Option.some ('/', rest1)
          else if e = 'n' then Option.some ('\n', rest1)
          else if e = 'r' then Option.some ('\r', rest1)
          else if e = 't' then Option.some ('\t', rest1)
          else if e = 'b' then Option.some (Char.ofNat 8, rest1)
          else if e = 'f' then Option.some (Char.ofNat 12, rest1)
          else if e = 'u' then
            match rest1 with
            | a :: b :: c1 :: d :: rest2 =>
              match hex_digits_to_nat [a, b, c1, d] with
              | Option.some n => Option.some (Char.ofNat n, rest2)
              | Option.none => Option.none
            | _ => Option.none
          else Option.none
        match decoded with
        | Option.none => Option.none
        | Option.some (ch, rest2) =>
          match parse_json_string_body fuel rest2 with
          | Option.some (body, rest3) => Option.some (ch :: body, rest3)
          | Option.none => Option.none
    else
      match parse_json_string_body fuel rest with
      | Option.some (body, rest3) => Option.some (c :: body, rest3)
      | Option.none => Option.none

/-- Parse an exponent part after `e`/`E` in a JSON number. -/
def parse_json_exp (cs : List Char) : Option Int × List Char :=
  let signed : Bool × List Char :=
    match cs with
    | '-' :: rest => (true, rest)
    | '+' :: rest => (false, rest)
    | rest => (false, rest)
  let sp := signed.2.span Char.isDigit
  if sp.1.length = 0 then (Option.none, cs)
  else
    let n : Int := Int.ofNat (digits_to_nat sp.1)
    (Option.some (if signed.1 then -n else n), sp.2)

/-- Integer power of ten as a rational. -/
def pow10 (e : Int) : Rat :=
  if 0 ≤ e then ((10 : Rat) ^ e.toNat) else ((10 : Rat) ^ (-e).toNat)⁻¹

/-- Parse a JSON number token, returning its `JNum` (integer flavour
when it has no fraction/exponent and fits in i64, float flavour
otherwise — the serde_json rule) and the rest. -/
def parse_json_number (cs : List Char) : Option (JNum × List Char) :=
  let signed : Bool × List Char :=
    match cs with
    | '-' :: rest => (true, rest)
    | rest => (false, rest)
  let ip := signed.2.span Char.isDigit
  if ip.1.length = 0 then Option.none
  else
    let fr : List Char × List Char :=
      match ip.2 with
      | '.' :: rest =>
        let sp := rest.span Char.isDigit
        if sp.1.length = 0 then ([], ip.2) else (sp.1, sp.2)
      | _ => ([], ip.2)
    let ex : Option Int × List Char :=
      match fr.2 with
      | 'e' :: rest => parse_json_exp rest
      | 'E' :: rest => parse_json_exp rest
      | _ => (Option.none, fr.2)
    let mant : Int :=
      let n : Int := Int.ofNat (digits_to_nat (ip.1 ++ fr.1))
      if signed.1 then -n else n
    let e10 : Int := (ex.1.getD 0) - Int.ofNat fr.1.length
    if fr.1 = [] && ex.1 = Option.none then
      if -(2 ^ 63) ≤ mant && mant ≤ 2 ^ 63 - 1 then Option.some (JNum.ofInt mant, ex.2)
      else Option.some (JNum.ofFloat (mant : Rat), ex.2)
    else
      Option.some (JNum.ofFloat ((mant : Rat) * pow10 e10), ex.2)

mutual
/-- Fuel-based JSON value parser (model of serde_json's parser; the
fuel is an upper bound on recursion depth, always sufficient for the
callers below). -/
def parse_json_value (fuel : Nat) (cs : List Char) : Option (JsonValue × List Char) :=
  match fuel with
  | 0 => Option.none
  | fuel + 1 =>
    match skip_ws cs with
    | [] => Option.none
    | c :: rest =>
      if c = 'n' then
        match rest with
        | 'u' :: 'l' :: 'l' :: rest1 => Option.some (JsonValue.null, rest1)
        | _ => Option.none
      else if c = 't' then
        match rest with
        | 'r' :: 'u' :: 'e' :: rest1 => Option.some (JsonValue.bool true, rest1)
        | _ => Option.none
      else if c = 'f' then
        match rest with
        | 'a' :: 'l' :: 's' :: 'e' :: rest1 => Option.some (JsonValue.bool false, rest1)
        | _ => Option.none
      else if c = '"' then
        match parse_json_string_body (rest.length + 1) rest with
        | Option.some (body, rest1) => Option.some (JsonValue.str (String.mk body), rest1)
        | Option.none => Option.none
      else if c = '[' then
        match skip_ws rest with
        | ']' :: rest1 => Option.some (JsonValue.arr [], rest1)
        | _ =>
          match parse_json_elems fuel rest with
          | Option.some (elems, rest1) => Option.some (JsonValue.arr elems, rest1)
          | Option.none => Option.none
      else if c = '\x7b' then
        match skip_ws rest with
        | '\x7d' :: rest1 => Option.some (JsonValue.obj [], rest1)
        | _ =>
          match parse_json_fields fuel rest with
          | Option.some (fields, rest1) => Option.some (JsonValue.obj fields, rest1)
          | Option.none => Option.none
      else
        match parse_json_number (c :: rest) with
        | Option.some (n, rest1) => Option.some (JsonValue.num n, rest1)
        | Option.none => Option.none

/-- Parse one or more comma-separated array elements then `]`. -/
def parse_json_elems (fuel : Nat) (cs : List Char) : Option (List JsonValue × List Char) :=
  match fuel with
  | 0 => Option.none
  | fuel + 1 =>
    match parse_json_value fuel cs with
    | Option.none => Option.none
    | Option.some (v, rest) =>
      match skip_ws rest with
      | ',' :: rest1 =>
        match parse_json_elems fuel rest1 with
        | Option.some (elems, rest2) => Option.some (v :: elems, rest2)
        | Option.none => Option.none
      | ']' :: rest1 => Option.some ([v], rest1)
      | _ => Option.none

/-- Parse one or more comma-separated object fields then the closing
brace. -/
def parse_json_fields (fuel : Nat) (cs : List Char) : Option (List (String × JsonValue) × List Char) :=
  match fuel with
  | 0 => Option.none
  | fuel + 1 =>
    match skip_ws cs with
    | '"' :: rest =>
      match parse_json_string_body (rest.length + 1) rest with
      | Option.none => Option.none
      | Option.some (key, rest1) =>
        match skip_ws rest1 with
        | ':' :: rest2 =>
          match parse_json_value fuel rest2 with
          | Option.none => Option.none
          | Option.some (v, rest3) =>
            match skip_ws rest3 with
            | ',' :: rest4 =>
              match parse_json_fields fuel rest4 with
              | Option.some (fields, rest5) => Option.some ((String.mk key, v) :: fields, rest5)
              | Option.none => Option.none
            | '\x7d' :: rest4 => Option.some ([(String.mk key, v)], rest4)
            | _ => Option.none
        | _ => Option.none
    | _ => Option.none
end

/-- Modelled: `serde_json::from_str::<serde_json::Value>` — the parsed
value with all input consumed, else an error (the error text is a fixed
modelled message; `cfg.rs` only forwards it). -/
def json_from_str (s : String) : Except String JsonValue :=
  match parse_json_value (s.length + 1) s.data with
  | Option.some (v, rest) =>
    if skip_ws rest = [] then Except.ok v
    else Except.error ("trailing characters")
  | Option.none => Except.error ("invalid JSON value")

/- ---------------------------------------------------------------
   Modelled f64 string parsing
   --------------------------------------------------------------- -/

/-- Parse a plain decimal form (sign, digits, optional fraction,
optional exponent) as an exact rational. -/
def parse_decimal (cs : List Char) : Option Rat :=
  let signed : Bool × List Char :=
    match cs with
    | '-' :: rest => (true, rest)
    | '+' :: rest => (false, rest)
    | rest => (false, rest)
  let ip := signed.2.span Char.isDigit
  let fr : List Char × List Char :=
    match ip.2 with
    | '.' :: rest =>
      let sp := rest.span Char.isDigit
      (sp.1, sp.2)
    | _ => ([], ip.2)
  if ip.1 = [] && fr.1 = [] then Option.none
  else
    let ex : Option Int × List Char :=
      match fr.2 with
      | 'e' :: rest => parse_json_exp rest
      | 'E' :: rest => parse_json_exp rest
      | _ => (Option.none, fr.2)
    match fr.2, ex with
    | _ :: _, (Option.none, _) =>
      if fr.2.head? = Option.some 'e' || fr.2.head? = Option.some 'E' then Option.none
      else Option.none
    | _, _ =>
      if ex.2 = [] then
        let mant : Int :=
          let n : Int := Int.ofNat (digits_to_nat (ip.1 ++ fr.1))
          if signed.1 then -n else n
        Option.some ((mant : Rat) * pow10 ((ex.1.getD 0) - Int.ofNat fr.1.length))
      else Option.none

/-- Modelled: Rust `str::parse::<f64>` — the special spellings of the
non-finite values, else a decimal literal (rounding to the nearest
double is not modelled: the exact rational is kept).  The error string
is the `ParseFloatError` display text. -/
def parse_f64 (s : String) : Except String F64 :=
  let low := s.toLower
  if low = "inf" || low = "infinity" || low = "+inf" || low = "+infinity" then Except.ok F64.inf
  else if low = "-inf" || low = "-infinity" then Except.ok F64.neginf
  else if low = "nan" || low = "+nan" || low = "-nan" then Except.ok F64.nan
  else
    match parse_decimal s.data with
    | Option.some q => Except.ok (F64.finite q)
    | Option.none => Except.error ("invalid float literal")

/- ---------------------------------------------------------------
   The validation engine: _parse_value (src/cfg.rs lines 94-473)
   --------------------------------------------------------------- -/

/-- Whether a value is the List variant. -/
def value_is_list : Value → Bool
  | Value.list _ => true
  | _ => false

/-- Whether a value is the None variant. -/
def value_is_none : Value → Bool
  | Value.none => true
  | _ => false

/-- Whether an inner column type is the Json variant. -/
def inner_is_json : InnerColumnType → Bool
  | InnerColumnType.Json _ => true
  | _ => false

/-- The bitflag masking loop of `_parse_value`: starting from 0, OR in
every declared bit whose bits are all set in the input
(`*bit & v == *bit`). -/
def bitflag_fold (values : List (String × Int)) (input : Int) : Int :=
  values.foldl (fun acc p => if Int.land p.2 input = p.2 then Int.lor acc p.2 else acc) 0

/-- The bitflag coercion of `_parse_value` (shared verbatim by its
Integer branch and the non-empty case of its String branch): mask the
input with the declared bits, substituting the first declared value
when the mask comes out 0. -/
def bitflag_canonical (values : List (String × Int)) (input : Int) (column_id : String) : Except SettingsError Value :=
  let fv := bitflag_fold values input
  if fv = 0 then
    match values.head? with
    | Option.none =>
      Except.error (SettingsError.SchemaCheckValidationError column_id ("bitflag_default")
        ("No default value found") ("Valid bitflag"))
    | Option.some p => Except.ok (Value.integer p.2)
  else Except.ok (Value.integer fv)

/-- The Scalar arm of `_parse_value`, including its leading
"List against a non-Json Scalar" type check.  Since the Array arm
validates each element by calling `_parse_value` at
`ColumnType::new_scalar(inner)`, that recursive call is exactly this
function — the recursion depth of `_parse_value` never exceeds two. -/
def parse_scalar (v : Value) (inner : InnerColumnType) (column_id : String) : Except SettingsError Value :=
  if value_is_list v && !(inner_is_json inner) then
    Except.error (SettingsError.SchemaTypeValidationError column_id ("Scalar") ("Array"))
  else
    match inner with
    | InnerColumnType.Uuid =>
      match v with
      | Value.str s =>
        match parse_uuid s with
        | Except.ok u => Except.ok (Value.uuid u)
        | Except.error e =>
          Except.error (SettingsError.SchemaCheckValidationError column_id ("uuid_parse") e ("Valid UUID"))
      | Value.uuid _ => Except.ok v
      | Value.none => Except.ok v
      | _ => Except.error (SettingsError.SchemaTypeValidationError column_id ("Uuid") (value_debug v))
    | InnerColumnType.Str _ _ _ _ =>
      match v with
      | Value.str _ => Except.ok v
      | Value.uuid u => Except.ok (Value.str (uuid_to_string u))
      | Value.none => Except.ok v
      | _ => Except.error (SettingsError.SchemaTypeValidationError column_id ("String") (value_debug v))
    | InnerColumnType.Timestamp =>
      match v with
      | Value.str s =>
        match parse_timestamp s with
        | Except.ok t => Except.ok (Value.timestamp t)
        | Except.error e =>
          Except.error (SettingsError.SchemaCheckValidationError column_id ("timestamp_parse") e ("Valid timestamp"))
      | Value.timestamp _ => Except.ok v
      | Value.none => Except.ok v
      | Value.timestamptz t => Except.ok (Value.timestamp t)
      | _ => Except.error (SettingsError.SchemaTypeValidationError column_id ("Timestamp") (value_debug v))
    | InnerColumnType.TimestampTz =>
      match v with
      | Value.str s =>
        match parse_rfc3339_utc s with
        | Except.ok t => Except.ok (Value.timestamptz t)
        | Except.error e =>
          Except.error (SettingsError.SchemaCheckValidationError column_id ("timestamp_tz_parse") e
            ("Valid timestamp with timezone"))
      | Value.timestamp t => Except.ok (Value.timestamptz t)
      | Value.timestamptz _ => Except.ok v
      | Value.none => Except.ok v
      | _ => Except.error (SettingsError.SchemaTypeValidationError column_id ("TimestampTz") (value_debug v))
    | InnerColumnType.Interval =>
      match v with
      | Value.str s =>
        match parse_duration_string_to_chrono_duration s with
        | Except.ok secs => Except.ok (Value.interval secs)
        | Except.error e =>
          Except.error (SettingsError.SchemaCheckValidationError column_id ("interval_parse") e ("Valid interval"))
      | Value.integer n => Except.ok (Value.interval n)
      | Value.interval _ => Except.ok v
      | Value.none => Except.ok v
      | _ => Except.error (SettingsError.SchemaTypeValidationError column_id ("Interval") (value_debug v))
    | InnerColumnType.Integer =>
      match v with
      | Value.str s =>
        if s.isEmpty then Except.ok Value.none
        else
          match parse_i64 s with
          | Except.ok n => Except.ok (Value.integer n)
          | Except.error e =>
            Except.error (SettingsError.SchemaCheckValidationError column_id ("integer_parse") e ("Valid integer"))
      | Value.integer n => Except.ok (Value.integer n)
      | Value.none => Except.ok v
      | _ => Except.error (SettingsError.SchemaTypeValidationError column_id ("Integer") (value_debug v))
    | InnerColumnType.Float =>
      match v with
      | Value.str s =>
        match parse_f64 s with
        | Except.ok f => Except.ok (Value.float f)
        | Except.error e =>
          Except.error (SettingsError.SchemaCheckValidationError column_id ("float_parse") e ("Valid float"))
      | Value.float f => Except.ok (Value.float f)
      | Value.none => Except.ok v
      | _ => Except.error (SettingsError.SchemaTypeValidationError column_id ("Float") (value_debug v))
    | InnerColumnType.BitFlag values =>
      match v with
      | Value.integer n => bitflag_canonical values n column_id
      | Value.str s =>
        if s.isEmpty then
          match values.head? with
          | Option.none =>
            Except.error (SettingsError.SchemaCheckValidationError column_id ("bitflag_default")
              ("No default value found") ("Valid bitflag"))
          | Option.some p => Except.ok (Value.integer p.2)
        else
          match parse_i64 s with
          | Except.error e =>
            Except.error (SettingsError.SchemaCheckValidationError column_id ("bitflag_parse") e ("Valid bitflag"))
          | Except.ok n => bitflag_canonical values n column_id
      | Value.none => Except.ok v
      | _ => Except.error (SettingsError.SchemaTypeValidationError column_id ("Integer") (value_debug v))
    | InnerColumnType.Boolean =>
      match v with
      | Value.str s =>
        match parse_bool s with
        | Except.ok b => Except.ok (Value.boolean b)
        | Except.error e =>
          Except.error (SettingsError.SchemaCheckValidationError column_id ("boolean_parse") e ("Valid boolean"))
      | Value.boolean b => Except.ok (Value.boolean b)
      | Value.none => Except.ok v
      | _ => Except.error (SettingsError.SchemaTypeValidationError column_id ("Boolean") (value_debug v))
    | InnerColumnType.Json max_bytes =>
      match v with
      | Value.str s =>
        if s.utf8ByteSize > max_bytes.getD 0 then
          Except.error (SettingsError.SchemaCheckValidationError column_id ("json_max_bytes")
            ("s.len() > *max_bytes: " ++ toString s.utf8ByteSize)
            ("<" ++ toString (max_bytes.getD 0)))
        else
          if !(s.startsWith "[") && !(s.startsWith "\x7b") then
            Except.ok (Value.json (JsonValue.str s))
          else
            match json_from_str s with
            | Except.ok j => Except.ok (Value.json j)
            | Except.error e =>
              Except.error (SettingsError.SchemaCheckValidationError column_id ("json_parse") e ("Valid JSON"))
      | _ =>
        let bytes := json_to_string (Value.to_json v)
        match max_bytes with
        | Option.some mb =>
          if bytes.utf8ByteSize > mb then
            Except.error (SettingsError.SchemaCheckValidationError column_id ("json_max_bytes")
              ("json.len() > *max_bytes: " ++ toString bytes.utf8ByteSize)
              ("<" ++ toString mb))
          else Except.ok v
        | Option.none => Except.ok v

/-- Sequence a fallible function over a list, first error aborting
(the accumulation loop shape of the Rust `for` loops). -/
def map_except {α β ε : Type} (f : α → Except ε β) : List α → Except ε (List β)
  | [] => Except.ok []
  | x :: xs =>
    match f x with
    | Except.error e => Except.error e
    | Except.ok y =>
      match map_except f xs with
      | Except.error e => Except.error e
      | Except.ok ys => Except.ok (y :: ys)

/-- _parse_value from `src/cfg.rs`.  The Array arm first enforces the
whole-payload byte bound for Json inner types, then validates each
element of a List by the recursive `_parse_value` call at
`ColumnType::new_scalar(inner)` — which is `parse_scalar`. -/
def parse_value (v : Value) (column_type : ColumnType) (column_id : String) : Except SettingsError Value :=
  match column_type with
  | ColumnType.Scalar inner => parse_scalar v inner column_id
  | ColumnType.Array inner =>
    let precheck : Except SettingsError Unit :=
      match inner with
      | InnerColumnType.Json max_bytes =>
        let json := json_to_string (Value.to_json v)
        match max_bytes with
        | Option.some mb =>
          if json.utf8ByteSize > mb then
            Except.error (SettingsError.SchemaCheckValidationError column_id ("json_max_bytes")
              ("json.len() > *max_bytes: " ++ toString json.utf8ByteSize)
              ("<" ++ toString mb))
          else Except.ok Unit.unit
        | Option.none => Except.ok Unit.unit
      | _ => Except.ok Unit.unit
    match precheck with
    | Except.error e => Except.error e
    | Except.ok _ =>
      match v with
      | Value.list l =>
        match map_except (fun x => parse_scalar x inner column_id) l with
        | Except.ok vs => Except.ok (Value.list vs)
        | Except.error e => Except.error e
      | Value.none => Except.ok v
      | _ => Except.error (SettingsError.SchemaTypeValidationError column_id ("Array") (value_debug v))

/- ---------------------------------------------------------------
   The validation engine: _validate_value (src/cfg.rs lines 475-585)
   --------------------------------------------------------------- -/

/-- The min_length check of `_validate_value`'s String branch. -/
def check_min_length (s : String) (min_length : Option Nat) (column_id : String) : Except SettingsError Unit :=
  match min_length with
  | Option.some mn =>
    if s.utf8ByteSize < mn then
      Except.error (SettingsError.SchemaCheckValidationError column_id ("minlength")
        ("s.len() < *min") (">" ++ toString mn))
    else Except.ok Unit.unit
  | Option.none => Except.ok Unit.unit

/-- The max_length check of `_validate_value`'s String branch. -/
def check_max_length (s : String) (max_length : Option Nat) (column_id : String) : Except SettingsError Unit :=
  match max_length with
  | Option.some mx =>
    if s.utf8ByteSize > mx then
      Except.error (SettingsError.SchemaCheckValidationError column_id ("maxlength")
        ("s.len() > *max") ("<" ++ toString mx))
    else Except.ok Unit.unit
  | Option.none => Except.ok Unit.unit

/-- The allowed_values check of `_validate_value`'s String branch.  The
accepted_range field carries the Debug form of the allowed list; it is
modelled (no claim inspects it). -/
def check_allowed_values (s : String) (allowed_values : List String) (column_id : String) : Except SettingsError Unit :=
  if !allowed_values.isEmpty && !(allowed_values.contains s) then
    Except.error (SettingsError.SchemaCheckValidationError column_id ("allowed_values")
      ("!allowed_values.is_empty() && !allowed_values.contains(&s.as_str())")
      ("[" ++ String.intercalate ", " (allowed_values.map debug_quote) ++ "]"))
  else Except.ok Unit.unit

/-- The trailing None check of `_validate_value` (its last lines): a
None result for a non-nullable column is a null-value error. -/
def validate_final (v : Value) (column_id : String) (is_nullable : Bool) : Except SettingsError Value :=
  if value_is_none v && !is_nullable then
    Except.error (SettingsError.SchemaNullValueValidationError column_id)
  else Except.ok v

/-- The Scalar arm of `_validate_value`'s main match, including its
leading "List against a non-Json Scalar" check.  Only the String inner
type carries checks; every other inner type passes the value through
(`_ => Ok(v)`).  The Rust String/None branch returns `Ok(v)` from the
whole function early when nullable; running the trailing None check on
that path returns the same `Ok(v)`, so the composition below is
outcome-identical. -/
def validate_scalar_step (v : Value) (inner : InnerColumnType) (column_id : String) (is_nullable : Bool) : Except SettingsError Value :=
  if value_is_list v && !(inner_is_json inner) then
    Except.error (SettingsError.SchemaTypeValidationError column_id ("Scalar") ("Array"))
  else
    match inner with
    | InnerColumnType.Str min_length max_length allowed_values _ =>
      match v with
      | Value.str s =>
        match check_min_length s min_length column_id with
        | Except.error e => Except.error e
        | Except.ok _ =>
          match check_max_length s max_length column_id with
          | Except.error e => Except.error e
          | Except.ok _ =>
            match check_allowed_values s allowed_values column_id with
            | Except.error e => Except.error e
            | Except.ok _ => Except.ok v
      | Value.none =>
        if !is_nullable then
          Except.error (SettingsError.SchemaNullValueValidationError column_id)
        else Except.ok v
      | _ => Except.error (SettingsError.SchemaTypeValidationError column_id ("String") (value_debug v))
    | _ => Except.ok v

/-- _validate_value at a Scalar column type: the Scalar arm followed by
the trailing None check.  The Array arm validates elements by the
recursive `_validate_value` call at `ColumnType::new_scalar(inner)`,
which is exactly this function. -/
def validate_scalar (v : Value) (inner : InnerColumnType) (column_id : String) (is_nullable : Bool) : Except SettingsError Value :=
  match validate_scalar_step v inner column_id is_nullable with
  | Except.error e => Except.error e
  | Except.ok v1 => validate_final v1 column_id is_nullable

/-- _validate_value from `src/cfg.rs`. -/
def validate_value (v : Value) (column_type : ColumnType) (column_id : String) (is_nullable : Bool) : Except SettingsError Value :=
  match column_type with
  | ColumnType.Scalar inner => validate_scalar v inner column_id is_nullable
  | ColumnType.Array inner =>
    let step : Except SettingsError Value :=
      match v with
      | Value.list l =>
        match map_except (fun x => validate_scalar x inner column_id is_nullable) l with
        | Except.ok vs => Except.ok (Value.list vs)
        | Except.error e => Except.error e
      | Value.none => Except.ok v
      | _ => Except.error (SettingsError.SchemaTypeValidationError column_id ("Array") (value_debug v))
    match step with
    | Except.error e => Except.error e
    | Except.ok v1 => validate_final v1 column_id is_nullable

/- ---------------------------------------------------------------
   The CRUD orchestrators (src/cfg.rs lines 587-707)
   --------------------------------------------------------------- -/

/-- The per-row coercion loop of `settings_view`: for every schema
column in order, take the value out of the row (None when absent), run
`_parse_value`, and reinsert under the column id. -/
def view_coerce_row (columns : List Column) (state : IndexMap) : Except SettingsError IndexMap :=
  match columns with
  | [] => Except.ok state
  | col :: rest =>
    let r := swap_remove state col.id
    match parse_value (r.1.getD Value.none) col.column_type col.id with
    | Except.error e => Except.error e
    | Except.ok val => view_coerce_row rest (insert_key r.2 col.id val)

/-- The stripping loop of `settings_view`: remove every secret column
and every column ignored for View. -/
def view_strip_row (columns : List Column) (state : IndexMap) : IndexMap :=
  match columns with
  | [] => state
  | col :: rest =>
    if col.secret then view_strip_row rest (swap_remove state col.id).2
    else if col.ignored_for.contains OperationType.View then
      view_strip_row rest (swap_remove state col.id).2
    else view_strip_row rest state

/-- settings_view from `src/cfg.rs`. -/
def settings_view {T : Type} (setting : Setting T) (data : T) (filters : IndexMap) : Except SettingsError (List IndexMap) :=
  match setting.operations.view with
  | Option.none => Except.error (SettingsError.OperationNotSupported OperationType.View)
  | Option.some viewer =>
    match viewer data filters with
    | Except.error e => Except.error e
    | Except.ok states =>
      map_except
        (fun state =>
          match view_coerce_row setting.columns state with
          | Except.error e => Except.error e
          | Except.ok coerced => Except.ok (view_strip_row setting.columns coerced))
        states

/-- The first loop of `settings_create`: every column not ignored for
Create is taken out of the input (None when absent), run through
`_parse_value` then `_validate_value` (with the column's nullability),
and reinserted under its id. -/
def create_coerce_columns (columns : List Column) (state : IndexMap) : Except SettingsError IndexMap :=
  match columns with
  | [] => Except.ok state
  | column :: rest =>
    if column.ignored_for.contains OperationType.Create then create_coerce_columns rest state
    else
      let r := swap_remove state column.id
      match parse_value (r.1.getD Value.none) column.column_type column.id with
      | Except.error e => Except.error e
      | Except.ok parsed =>
        match validate_value parsed column.column_type column.id column.nullable with
        | Except.error e => Except.error e
        | Except.ok value => create_coerce_columns rest (insert_key r.2 column.id value)

/-- The second loop of `settings_create`: every non-ignored column must
be present, and must be non-None unless nullable. -/
def create_null_checks (columns : List Column) (state : IndexMap) : Except SettingsError Unit :=
  match columns with
  | [] => Except.ok Unit.unit
  | column :: rest =>
    if column.ignored_for.contains OperationType.Create then create_null_checks rest state
    else
      match get_key state column.id with
      | Option.none =>
        Except.error (SettingsError.Generic
          ("Column `" ++ column.id ++ "` not found in state despite just being parsed")
          ("settings_create [ext_checks]") ("internal"))
      | Option.some value =>
        if !column.nullable && value_is_none value then
          Except.error (SettingsError.MissingOrInvalidField column.id ("settings_create [null check]"))
        else create_null_checks rest state

/-- The third loop of `settings_create`: strip the ignored-for-Create
columns before calling the backend. -/
def create_strip_ignored (columns : List Column) (state : IndexMap) : IndexMap :=
  match columns with
  | [] => state
  | col :: rest =>
    if col.ignored_for.contains OperationType.Create then
      create_strip_ignored rest (swap_remove state col.id).2
    else create_strip_ignored rest state

/-- settings_create from `src/cfg.rs`. -/
def settings_create {T : Type} (setting : Setting T) (data : T) (fields : IndexMap) : Except SettingsError IndexMap :=
  match setting.operations.create with
  | Option.none => Except.error (SettingsError.OperationNotSupported OperationType.Create)
  | Option.some creator =>
    match create_coerce_columns setting.columns fields with
    | Except.error e => Except.error e
    | Except.ok state =>
      match create_null_checks setting.columns state with
      | Except.error e => Except.error e
      | Except.ok _ => creator data (create_strip_ignored setting.columns state)

/- ---------------------------------------------------------------
   Helper lemmas: Int bitwise algebra
   --------------------------------------------------------------- -/

/-- Bit 0 of the integer zero is never set. -/
lemma int_zero_testBit (i : Nat) : Int.testBit 0 i = false := by
  show Int.testBit (Int.ofNat 0) i = false
  simp [Int.testBit, Nat.zero_testBit]

/-- Two integers with the same two's complement bits are equal. -/
lemma int_testBit_ext {m n : Int} (h : ∀ i, Int.testBit m i = Int.testBit n i) : m = n := by
  cases m with
  | ofNat a =>
    cases n with
    | ofNat b =>
      have : a = b := Nat.eq_of_testBit_eq fun i => by simpa [Int.testBit] using h i
      simp [this]
    | negSucc b =>
      exfalso
      have hi := h (max a b)
      have ha : Nat.testBit a (max a b) = false :=
        Nat.testBit_eq_false_of_lt
          (lt_of_le_of_lt (le_max_left a b) (Nat.lt_two_pow (max a b)))
      have hb : Nat.testBit b (max a b) = false :=
        Nat.testBit_eq_false_of_lt
          (lt_of_le_of_lt (le_max_right a b) (Nat.lt_two_pow (max a b)))
      simp [Int.testBit, ha, hb] at hi
  | negSucc a =>
    cases n with
    | ofNat b =>
      exfalso
      have hi := h (max a b)
      have ha : Nat.testBit a (max a b) = false :=
        Nat.testBit_eq_false_of_lt
          (lt_of_le_of_lt (le_max_left a b) (Nat.lt_two_pow (max a b)))
      have hb : Nat.testBit b (max a b) = false :=
        Nat.testBit_eq_false_of_lt
          (lt_of_le_of_lt (le_max_right a b) (Nat.lt_two_pow (max a b)))
      simp [Int.testBit, ha, hb] at hi
    | negSucc b =>
      have : a = b := Nat.eq_of_testBit_eq fun i => by
        have hi := h i
        simp [Int.testBit] at hi
        exact hi
      simp [this]

/-- `Int.land a b = a` says precisely that every set bit of `a` is set
in `b` (the "a is a submask of b" relation). -/
lemma int_land_eq_self_iff {a b : Int} :
    Int.land a b = a ↔ ∀ i, Int.testBit a i = true → Int.testBit b i = true := by
  constructor
  · intro h i hi
    have hc := congrArg (fun x => Int.testBit x i) h
    simp only [Int.testBit_land] at hc
    rw [hi] at hc
    simpa using hc
  · intro h
    apply int_testBit_ext
    intro i
    rw [Int.testBit_land]
    cases hx : Int.testBit a i with
    | true => simp [h i hx]
    | false => simp

/-- Submask transitivity. -/
lemma int_submask_trans {a b c : Int} (h1 : Int.land a b = a) (h2 : Int.land b c = b) :
    Int.land a c = a := by
  rw [int_land_eq_self_iff] at h1 h2 ⊢
  exact fun i hi => h2 i (h1 i hi)

/-- Every integer is a submask of itself. -/
lemma int_land_self (a : Int) : Int.land a a = a := by
  rw [int_land_eq_self_iff]
  exact fun i hi => hi

/-- Zero is a submask of everything. -/
lemma int_zero_land (b : Int) : Int.land 0 b = 0 := by
  rw [int_land_eq_self_iff]
  intro i hi
  rw [int_zero_testBit] at hi
  cases hi

/-- An OR of two submasks of `c` is a submask of `c`. -/
lemma int_lor_submask {a b c : Int} (ha : Int.land a c = a) (hb : Int.land b c = b) :
    Int.land (Int.lor a b) c = Int.lor a b := by
  rw [int_land_eq_self_iff] at ha hb ⊢
  intro i hi
  rw [Int.testBit_lor] at hi
  rcases Bool.or_eq_true_iff.mp hi with h | h
  · exact ha i h
  · exact hb i h

/-- The left operand is a submask of an OR. -/
lemma int_submask_lor_left (a b : Int) : Int.land a (Int.lor a b) = a := by
  rw [int_land_eq_self_iff]
  intro i hi
  rw [Int.testBit_lor, hi]
  rfl

/-- The right operand is a submask of an OR. -/
lemma int_submask_lor_right (a b : Int) : Int.land b (Int.lor a b) = b := by
  rw [int_land_eq_self_iff]
  intro i hi
  rw [Int.testBit_lor, hi]
  simp

/-- Mutual submasks are equal. -/
lemma int_submask_antisymm {a b : Int} (h1 : Int.land a b = a) (h2 : Int.land b a = b) :
    a = b := by
  rw [int_land_eq_self_iff] at h1 h2
  apply int_testBit_ext
  intro i
  cases ha : Int.testBit a i with
  | true => exact (h1 i ha).symm
  | false =>
    cases hb : Int.testBit b i with
    | true => rw [h2 i hb] at ha; cases ha
    | false => rfl

/- ---------------------------------------------------------------
   Helper lemmas: the bitflag fold
   --------------------------------------------------------------- -/

/-- Generalized accumulator form of the masking loop: starting from a
submask of the input, the loop's value remains a submask of the input. -/
lemma bitflag_fold_acc_submask (input : Int) :
    ∀ (l : List (String × Int)) (acc : Int), Int.land acc input = acc →
      Int.land (l.foldl (fun acc p => if Int.land p.2 input = p.2 then Int.lor acc p.2 else acc) acc) input
        = l.foldl (fun acc p => if Int.land p.2 input = p.2 then Int.lor acc p.2 else acc) acc := by
  intro l
  induction l with
  | nil => intro acc h; simpa using h
  | cons p rest ih =>
    intro acc h
    simp only [List.foldl_cons]
    by_cases hp : Int.land p.2 input = p.2
    · rw [if_pos hp]
      exact ih (Int.lor acc p.2) (int_lor_submask h hp)
    · rw [if_neg hp]
      exact ih acc h

/-- The masking loop's result is a submask of the input. -/
lemma bitflag_fold_submask (values : List (String × Int)) (input : Int) :
    Int.land (bitflag_fold values input) input = bitflag_fold values input :=
  bitflag_fold_acc_submask input values 0 (int_zero_land input)

/-- Once a bit pattern is a submask of the accumulator it remains a
submask of the loop's final value. -/
lemma bitflag_fold_acc_mono (input x : Int) :
    ∀ (l : List (String × Int)) (acc : Int), Int.land x acc = x →
      Int.land x (l.foldl (fun acc p => if Int.land p.2 input = p.2 then Int.lor acc p.2 else acc) acc) = x := by
  intro l
  induction l with
  | nil => intro acc h; simpa using h
  | cons p rest ih =>
    intro acc h
    simp only [List.foldl_cons]
    by_cases hp : Int.land p.2 input = p.2
    · rw [if_pos hp]
      exact ih (Int.lor acc p.2) (int_submask_trans h (int_submask_lor_left acc p.2))
    · rw [if_neg hp]
      exact ih acc h

/-- Generalized accumulator form: every listed flag whose bits are all
set in the input is a submask of the loop's final value. -/
lemma bitflag_fold_acc_mem (input : Int) :
    ∀ (l : List (String × Int)) (acc : Int) (p : String × Int), p ∈ l →
      Int.land p.2 input = p.2 →
      Int.land p.2 (l.foldl (fun acc p => if Int.land p.2 input = p.2 then Int.lor acc p.2 else acc) acc) = p.2 := by
  intro l
  induction l with
  | nil => intro acc p hp; cases hp
  | cons q rest ih =>
    intro acc p hp hcond
    simp only [List.foldl_cons]
    rcases List.mem_cons.mp hp with rfl | hmem
    · rw [if_pos hcond]
      exact bitflag_fold_acc_mono input p.2 rest (Int.lor acc p.2)
        (int_submask_lor_right acc p.2)
    · by_cases hq : Int.land q.2 input = q.2
      · rw [if_pos hq]
        exact ih (Int.lor acc q.2) p hmem hcond
      · rw [if_neg hq]
        exact ih acc p hmem hcond

/-- Every declared flag whose bits are all set in the input is a
submask of the masking loop's result. -/
lemma bitflag_fold_mem_submask (values : List (String × Int)) (input : Int)
    (p : String × Int) (hp : p ∈ values) (hcond : Int.land p.2 input = p.2) :
    Int.land p.2 (bitflag_fold values input) = p.2 :=
  bitflag_fold_acc_mem input values 0 p hp hcond

/-- Generalized accumulator form of flag-wise congruence. -/
lemma bitflag_fold_acc_congr (v1 v2 : Int) :
    ∀ (l : List (String × Int)) (acc : Int),
      (∀ p ∈ l, (Int.land p.2 v1 = p.2) ↔ (Int.land p.2 v2 = p.2)) →
      l.foldl (fun acc p => if Int.land p.2 v1 = p.2 then Int.lor acc p.2 else acc) acc
        = l.foldl (fun acc p => if Int.land p.2 v2 = p.2 then Int.lor acc p.2 else acc) acc := by
  intro l
  induction l with
  | nil => intro acc _; rfl
  | cons q rest ih =>
    intro acc h
    simp only [List.foldl_cons]
    have hq := h q (List.mem_cons_self q rest)
    have hrest : ∀ p ∈ rest, (Int.land p.2 v1 = p.2) ↔ (Int.land p.2 v2 = p.2) :=
      fun p hp => h p (List.mem_cons_of_mem q hp)
    by_cases h1 : Int.land q.2 v1 = q.2
    · rw [if_pos h1, if_pos (hq.mp h1)]
      exact ih (Int.lor acc q.2) hrest
    · rw [if_neg h1, if_neg (fun h2 => h1 (hq.mpr h2))]
      exact ih acc hrest

/-- The masking loop only looks at each flag through its membership
test: two inputs that agree on every declared flag fold identically. -/
lemma bitflag_fold_congr (values : List (String × Int)) (v1 v2 : Int)
    (h : ∀ p ∈ values, (Int.land p.2 v1 = p.2) ↔ (Int.land p.2 v2 = p.2)) :
    bitflag_fold values v1 = bitflag_fold values v2 :=
  bitflag_fold_acc_congr v1 v2 values 0 h

/- ---------------------------------------------------------------
   Claim C5 specification form of the bitflag coercion
   --------------------------------------------------------------- -/

/-- The OR of exactly those declared bits `b` with `b & input == b`, in
the claim's phrasing (a filter followed by a plain OR fold). -/
def bitflag_spec_or (values : List (String × Int)) (input : Int) : Int :=
  (values.filter (fun p => decide (Int.land p.2 input = p.2))).foldl
    (fun acc p => Int.lor acc p.2) 0

/-- Generalized accumulator form: the if-guarded fold equals the plain
fold over the filtered list. -/
lemma bitflag_fold_acc_filter (input : Int) :
    ∀ (l : List (String × Int)) (acc : Int),
      l.foldl (fun acc p => if Int.land p.2 input = p.2 then Int.lor acc p.2 else acc) acc
        = (l.filter (fun p => decide (Int.land p.2 input = p.2))).foldl
            (fun acc p => Int.lor acc p.2) acc := by
  intro l
  induction l with
  | nil => intro acc; rfl
  | cons q rest ih =>
    intro acc
    simp only [List.foldl_cons, List.filter_cons]
    by_cases h : Int.land q.2 input = q.2
    · rw [if_pos h]
      simp only [h, decide_eq_true_eq, if_true, eq_self_iff_true, List.foldl_cons]
      exact ih (Int.lor acc q.2)
    · rw [if_neg h]
      simp only [decide_eq_true_eq, h, if_false]
      exact ih acc

/-- The code's masking loop computes the claim's filtered OR. -/
lemma bitflag_fold_eq_spec (values : List (String × Int)) (input : Int) :
    bitflag_fold values input = bitflag_spec_or values input :=
  bitflag_fold_acc_filter input values 0

/- ---------------------------------------------------------------
   Helper lemmas: _validate_value on the None value
   --------------------------------------------------------------- -/

/-- Validating None against any column type with nullable = false is
the null-value error: the String branch raises it directly, every other
scalar branch passes None to the trailing check, and the Array branch's
None case does the same. -/
lemma validate_value_none_not_nullable (ct : ColumnType) (column_id : String) :
    validate_value Value.none ct column_id false
      = Except.error (SettingsError.SchemaNullValueValidationError column_id) := by
  cases ct with
  | Scalar inner => cases inner <;> rfl
  | Array inner => rfl

/-- Validating None against any column type with nullable = true
returns None unchanged. -/
lemma validate_value_none_nullable (ct : ColumnType) (column_id : String) :
    validate_value Value.none ct column_id true = Except.ok Value.none := by
  cases ct with
  | Scalar inner => cases inner <;> rfl
  | Array inner => rfl

/- ---------------------------------------------------------------
   Claim C4
   --------------------------------------------------------------- -/

/-- C4: for every column type and column id, validating the None value
with nullable = false fails with the null-value error naming the column
(never substituting a default), and validating None with nullable =
true returns None unchanged. -/
theorem c4_validate_none_nullability (ct : ColumnType) (column_id : String) :
    validate_value Value.none ct column_id false
        = Except.error (SettingsError.SchemaNullValueValidationError column_id)
      ∧ validate_value Value.none ct column_id true = Except.ok Value.none :=
  ⟨validate_value_none_not_nullable ct column_id, validate_value_none_nullable ct column_id⟩

/- ---------------------------------------------------------------
   Claim C1
   --------------------------------------------------------------- -/

/-- C1 (the code's actual behaviour at the claimed input): with
`max_bytes = None`, the Json String branch compares the string's length
against `max_bytes.unwrap_or(0)`, so the plain string "hello" — which
the claim (and the non-String sibling branch, which checks the bound
only `if let Some(max_bytes)`) says must pass through as the JSON
string value — is rejected with a `json_max_bytes` check error of
accepted range "<0". -/
theorem c1_json_maxbytes_none_rejects_plain_string :
    parse_value (Value.str ("hello")) (ColumnType.Scalar (InnerColumnType.Json Option.none)) ("c")
      = Except.error (SettingsError.SchemaCheckValidationError ("c") ("json_max_bytes")
          ("s.len() > *max_bytes: 5") ("<0")) := rfl

/- ---------------------------------------------------------------
   Claim C5
   --------------------------------------------------------------- -/

/-- C5: for every BitFlag column with a non-empty declared values map
and every Integer input, validation succeeds returning the Integer that
is the OR of exactly those declared bits `b` with `b & v == b`
(discarding undeclared bits), except that an OR of 0 is replaced by the
bit value of the first declared flag. -/
theorem c5_bitflag_masking (values : List (String × Int)) (hne : values ≠ [])
    (v : Int) (column_id : String) :
    parse_value (Value.integer v) (ColumnType.Scalar (InnerColumnType.BitFlag values)) column_id
      = Except.ok (Value.integer
          (if bitflag_spec_or values v = 0 then (values.head hne).2 else bitflag_spec_or values v)) := by
  have hpv : parse_value (Value.integer v) (ColumnType.Scalar (InnerColumnType.BitFlag values)) column_id
      = bitflag_canonical values v column_id := rfl
  rw [hpv, bitflag_canonical, bitflag_fold_eq_spec]
  rcases values with _ | ⟨p, rest⟩
  · cases hne rfl
  · by_cases h0 : bitflag_spec_or (p :: rest) v = 0
    · rw [if_pos h0, if_pos h0]
      rfl
    · rw [if_neg h0, if_neg h0]

/-- C5 witness: `values = {A:1, B:2}` and input `5` yield `1` (bit 4 is
discarded), through the theorem at that concrete input. -/
theorem c5_bitflag_masking_witness :
    parse_value (Value.integer 5) (ColumnType.Scalar (InnerColumnType.BitFlag [(("A" : String), (1 : Int)), (("B" : String), (2 : Int))])) ("flags")
      = Except.ok (Value.integer 1) := by
  have h := c5_bitflag_masking [(("A" : String), (1 : Int)), (("B" : String), (2 : Int))]
    (List.cons_ne_nil _ _) 5 ("flags")
  rw [show bitflag_spec_or [(("A" : String), (1 : Int)), (("B" : String), (2 : Int))] 5 = 1 from rfl] at h
  simpa using h

/- ---------------------------------------------------------------
   Claim C6
   --------------------------------------------------------------- -/

/-- C6: BitFlag coercion is idempotent — for a BitFlag column with a
non-empty declared values map, if validating an Integer input succeeds
with result `r`, validating `r` again succeeds and returns `r`. -/
theorem c6_bitflag_idempotent (values : List (String × Int)) (hne : values ≠ [])
    (v : Int) (column_id : String) (r : Value)
    (h : parse_value (Value.integer v) (ColumnType.Scalar (InnerColumnType.BitFlag values)) column_id
      = Except.ok r) :
    parse_value r (ColumnType.Scalar (InnerColumnType.BitFlag values)) column_id = Except.ok r := by
  rcases values with _ | ⟨p, rest⟩
  · cases hne rfl
  have hcanon : parse_value (Value.integer v) (ColumnType.Scalar (InnerColumnType.BitFlag (p :: rest))) column_id
      = bitflag_canonical (p :: rest) v column_id := rfl
  rw [hcanon, bitflag_canonical] at h
  by_cases h0 : bitflag_fold (p :: rest) v = 0
  · rw [if_pos h0] at h
    simp only [List.head?_cons] at h
    have hr : r = Value.integer p.2 := (Except.ok.inj h).symm
    subst hr
    have hcanon2 : parse_value (Value.integer p.2) (ColumnType.Scalar (InnerColumnType.BitFlag (p :: rest))) column_id
        = bitflag_canonical (p :: rest) p.2 column_id := rfl
    rw [hcanon2, bitflag_canonical]
    have hsub1 : Int.land (bitflag_fold (p :: rest) p.2) p.2 = bitflag_fold (p :: rest) p.2 :=
      bitflag_fold_submask (p :: rest) p.2
    have hsub2 : Int.land p.2 (bitflag_fold (p :: rest) p.2) = p.2 :=
      bitflag_fold_mem_submask (p :: rest) p.2 p (List.mem_cons_self p rest) (int_land_self p.2)
    have hfe : bitflag_fold (p :: rest) p.2 = p.2 := int_submask_antisymm hsub1 hsub2
    rw [hfe]
    by_cases hz : p.2 = 0
    · rw [if_pos hz]
      simp [hz]
    · rw [if_neg hz]
  · rw [if_neg h0] at h
    have hr : r = Value.integer (bitflag_fold (p :: rest) v) := (Except.ok.inj h).symm
    subst hr
    have hcanon2 : parse_value (Value.integer (bitflag_fold (p :: rest) v))
        (ColumnType.Scalar (InnerColumnType.BitFlag (p :: rest))) column_id
        = bitflag_canonical (p :: rest) (bitflag_fold (p :: rest) v) column_id := rfl
    rw [hcanon2, bitflag_canonical]
    have hFsub : Int.land (bitflag_fold (p :: rest) v) v = bitflag_fold (p :: rest) v :=
      bitflag_fold_submask (p :: rest) v
    have hfe : bitflag_fold (p :: rest) (bitflag_fold (p :: rest) v) = bitflag_fold (p :: rest) v := by
      apply bitflag_fold_congr
      intro q hq
      constructor
      · intro hQ
        exact int_submask_trans hQ hFsub
      · intro hQ
        exact bitflag_fold_mem_submask (p :: rest) v q hq hQ
    rw [hfe, if_neg h0]

/-- C6 witness: at `values = {A:1, B:2}` and input `5`, the first
validation yields Integer 1 and revalidating 1 yields 1 again, through
the theorem at that concrete input. -/
theorem c6_bitflag_idempotent_witness :
    parse_value (Value.integer 1) (ColumnType.Scalar (InnerColumnType.BitFlag [(("A" : String), (1 : Int)), (("B" : String), (2 : Int))])) ("flags")
      = Except.ok (Value.integer 1) :=
  c6_bitflag_idempotent [(("A" : String), (1 : Int)), (("B" : String), (2 : Int))]
    (List.cons_ne_nil _ _) 5 ("flags") (Value.integer 1) rfl

/- ---------------------------------------------------------------
   Claim C7
   --------------------------------------------------------------- -/

/-- C7 counterexample: validating `[1,2,"x"]` against `Array{Integer}`
does abort on the element "x" referencing the same column id, but the
error is the `integer_parse` *check-failure* error
(`SchemaCheckValidationError`), not a type-mismatch error
(`SchemaTypeValidationError`) as the claim states. -/
theorem c7_array_error_is_check_not_type_mismatch :
    parse_value (Value.list [Value.integer 1, Value.integer 2, Value.str ("x")])
        (ColumnType.Array InnerColumnType.Integer) ("c")
      = Except.error (SettingsError.SchemaCheckValidationError ("c") ("integer_parse")
          ("invalid digit found in string") ("Valid integer"))
    ∧ parse_value (Value.list [Value.integer 1, Value.integer 2, Value.str ("x")])
        (ColumnType.Array InnerColumnType.Integer) ("c")
      ≠ Except.error (SettingsError.SchemaTypeValidationError ("c") ("Integer")
          (value_debug (Value.str ("x")))) := by
  constructor
  · rfl
  · intro h
    rw [show parse_value (Value.list [Value.integer 1, Value.integer 2, Value.str ("x")])
        (ColumnType.Array InnerColumnType.Integer) ("c")
      = Except.error (SettingsError.SchemaCheckValidationError ("c") ("integer_parse")
          ("invalid digit found in string") ("Valid integer")) from rfl] at h
    simp at h

/-- C7 (amended): Array validation distributes over elements — for a
non-Json inner type a List input is validated element by element
against the Scalar of the inner type, in order, the first failure
aborting; in particular `[1,2,"x"]` against `Array{Integer}` fails on
"x" with the `integer_parse` check error referencing the same column
id, and `[1,2,3]` succeeds returning the list unchanged. -/
theorem c7_array_distributes (inner : InnerColumnType) (l : List Value) (column_id : String)
    (hnj : inner_is_json inner = false) :
    parse_value (Value.list l) (ColumnType.Array inner) column_id
        = (map_except (fun x => parse_value x (ColumnType.Scalar inner) column_id) l).map Value.list
    ∧ parse_value (Value.list [Value.integer 1, Value.integer 2, Value.str ("x")])
        (ColumnType.Array InnerColumnType.Integer) ("c")
      = Except.error (SettingsError.SchemaCheckValidationError ("c") ("integer_parse")
          ("invalid digit found in string") ("Valid integer"))
    ∧ parse_value (Value.list [Value.integer 1, Value.integer 2, Value.integer 3])
        (ColumnType.Array InnerColumnType.Integer) ("c")
      = Except.ok (Value.list [Value.integer 1, Value.integer 2, Value.integer 3]) := by
  refine ⟨?_, rfl, rfl⟩
  rw [show (fun x => parse_value x (ColumnType.Scalar inner) column_id)
      = (fun x => parse_scalar x inner column_id) from rfl]
  cases inner <;> try (simp [inner_is_json] at hnj)
  all_goals
    simp only [parse_value]
  all_goals
    split <;> (rename_i heq; rw [heq]; rfl)

/-- C7 witness: the distribution equation applied at the concrete
singleton list `[7]` of the Integer inner type. -/
theorem c7_array_distributes_witness :
    parse_value (Value.list [Value.integer 7]) (ColumnType.Array InnerColumnType.Integer) ("c")
      = (map_except (fun x => parse_value x (ColumnType.Scalar InnerColumnType.Integer) ("c"))
          [Value.integer 7]).map Value.list :=
  (c7_array_distributes InnerColumnType.Integer [Value.integer 7] ("c") rfl).1

/- ---------------------------------------------------------------
   Claim C9
   --------------------------------------------------------------- -/

/-- C9 counterexample: `Value::to_json` on a NaN float does not treat
the value as a data error — `Number::from_f64` yields `None` and the
`unwrap_or` silently replaces the value with the JSON number 0. -/
theorem c9_tojson_nan_is_number_zero :
    Value.to_json (Value.float F64.nan) = JsonValue.num (JNum.ofInt 0) := rfl

/-- C9 (amended): a Float that cannot be expressed in the JSON-interop
numeric form (NaN or infinite, i.e. `Number::from_f64` returns None) is
silently serialized by `Value::to_json` as the JSON number 0 rather
than being treated as a data error. -/
theorem c9_tojson_nonfinite_silently_zero (f : F64) (h : jnum_from_f64 f = Option.none) :
    Value.to_json (Value.float f) = JsonValue.num (JNum.ofInt 0) := by
  cases f with
  | finite q => simp [jnum_from_f64] at h
  | inf => rfl
  | neginf => rfl
  | nan => rfl

/-- C9 witness: the amended theorem applied at positive infinity. -/
theorem c9_tojson_nonfinite_silently_zero_witness :
    Value.to_json (Value.float F64.inf) = JsonValue.num (JNum.ofInt 0) :=
  c9_tojson_nonfinite_silently_zero F64.inf rfl

/- ---------------------------------------------------------------
   Claim C10
   --------------------------------------------------------------- -/

/-- C10: `Value::from_json` does not map every JSON string to a String
value — a string is first tried as a `%Y-%m-%d %H:%M:%S` timestamp,
then as RFC 3339 (yielding TimestampTz), and is kept as a String only
when both parses fail; consequently the timestamp-shaped String
"2020-01-01 00:00:00" does not round-trip through to_json/from_json. -/
theorem c10_from_json_string_branches :
    (∀ s t, parse_timestamp s = Except.ok t →
      Value.from_json (JsonValue.str s) = Value.timestamp t)
    ∧ (∀ s e1 t, parse_timestamp s = Except.error e1 → parse_rfc3339_utc s = Except.ok t →
      Value.from_json (JsonValue.str s) = Value.timestamptz t)
    ∧ (∀ s e1 e2, parse_timestamp s = Except.error e1 → parse_rfc3339_utc s = Except.error e2 →
      Value.from_json (JsonValue.str s) = Value.str s)
    ∧ Value.from_json (Value.to_json (Value.str ("2020-01-01 00:00:00")))
        ≠ Value.str ("2020-01-01 00:00:00") := by
  refine ⟨?_, ?_, ?_, ?_⟩
  · intro s t h
    show (match parse_timestamp s with
      | Except.ok t => Value.timestamp t
      | Except.error _ =>
        match parse_rfc3339_utc s with
        | Except.ok t => Value.timestamptz t
        | Except.error _ => Value.str s) = Value.timestamp t
    rw [h]
  · intro s e1 t h1 h2
    show (match parse_timestamp s with
      | Except.ok t => Value.timestamp t
      | Except.error _ =>
        match parse_rfc3339_utc s with
        | Except.ok t => Value.timestamptz t
        | Except.error _ => Value.str s) = Value.timestamptz t
    rw [h1, h2]
  · intro s e1 e2 h1 h2
    show (match parse_timestamp s with
      | Except.ok t => Value.timestamp t
      | Except.error _ =>
        match parse_rfc3339_utc s with
        | Except.ok t => Value.timestamptz t
        | Except.error _ => Value.str s) = Value.str s
    rw [h1, h2]
  · rw [show Value.from_json (Value.to_json (Value.str ("2020-01-01 00:00:00")))
        = Value.timestamp ⟨2020, 1, 1, 0, 0, 0, 0⟩ from rfl]
    simp

/-- C10 witness: the String branch applied at "hello" (both parses
fail, so the string survives), through the theorem. -/
theorem c10_from_json_string_branches_witness :
    Value.from_json (JsonValue.str ("hello")) = Value.str ("hello") :=
  c10_from_json_string_branches.2.2.1 ("hello")
    ("input does not match the timestamp format")
    ("input does not match the RFC 3339 format") rfl rfl

/- ---------------------------------------------------------------
   Claim C3
   --------------------------------------------------------------- -/

/-- C3 counterexample: a Setting with one non-nullable, non-secret,
non-ignored String column whose view backend returns one row missing
that column.  The claim says view must fail with the null-value error;
the code coerces with `_parse_value` — which never consults the
nullable flag — and succeeds, returning the row with the column set to
None. -/
theorem c3_view_returns_row_with_none_for_missing_nonnullable :
    settings_view
      { id := ("s"), name := ("s"), description := (""), primary_key := ("c"),
        title_template := (""),
        columns := [⟨("c"), ("c"), (""),
          ColumnType.Scalar (InnerColumnType.Str Option.none Option.none [] ("")),
          false, ColumnSuggestion.NoSuggestions, false, []⟩],
        operations := ⟨Option.some (fun _ _ => Except.ok [[]]),
          Option.none, Option.none, Option.none⟩ }
      Unit.unit []
      = Except.ok [[(("c"), Value.none)]] := rfl

/-- C3 (amended): view validates each returned value with
`_parse_value` using the column's type only — the nullable flag is not
consulted — so for every column (of any nullability) whose type parses
None to None, a backend row missing that column is returned
successfully with the column mapped to None instead of failing with
the null-value error. -/
theorem c3_view_ignores_nullable {T : Type} (data : T) (c : Column) (filters : IndexMap)
    (sid sname sdesc spk stt : String)
    (hparse : parse_value Value.none c.column_type c.id = Except.ok Value.none)
    (hsecret : c.secret = false)
    (hign : c.ignored_for.contains OperationType.View = false) :
    settings_view
      { id := sid, name := sname, description := sdesc, primary_key := spk,
        title_template := stt, columns := [c],
        operations := ⟨Option.some (fun _ _ => Except.ok [[]]),
          Option.none, Option.none, Option.none⟩ }
      data filters
      = Except.ok [[(c.id, Value.none)]] := by
  have h1 : view_coerce_row [c] [] = Except.ok [(c.id, Value.none)] := by
    show (match parse_value Value.none c.column_type c.id with
      | Except.error e => Except.error e
      | Except.ok val => view_coerce_row [] (insert_key [] c.id val)) = Except.ok [(c.id, Value.none)]
    rw [hparse]
    rfl
  have h2 : view_strip_row [c] [(c.id, Value.none)] = [(c.id, Value.none)] := by
    show (if c.secret = true then view_strip_row [] (swap_remove [(c.id, Value.none)] c.id).2
      else if c.ignored_for.contains OperationType.View = true then
        view_strip_row [] (swap_remove [(c.id, Value.none)] c.id).2
      else view_strip_row [] [(c.id, Value.none)]) = [(c.id, Value.none)]
    rw [hsecret, hign]
    simp only [Bool.false_eq_true, if_false]
    rfl
  show map_except (fun state =>
      match view_coerce_row [c] state with
      | Except.error e => Except.error e
      | Except.ok coerced => Except.ok (view_strip_row [c] coerced)) [[]]
    = Except.ok [[(c.id, Value.none)]]
  simp only [map_except, h1, h2]

/-- C3 witness: the amended theorem at a concrete non-nullable Integer
column. -/
theorem c3_view_ignores_nullable_witness :
    settings_view
      { id := ("s"), name := ("s"), description := (""), primary_key := ("n"),
        title_template := (""),
        columns := [⟨("n"), ("n"), (""),
          ColumnType.Scalar InnerColumnType.Integer,
          false, ColumnSuggestion.NoSuggestions, false, []⟩],
        operations := ⟨Option.some (fun _ _ => Except.ok [[]]),
          Option.none, Option.none, Option.none⟩ }
      Unit.unit []
      = Except.ok [[(("n"), Value.none)]] :=
  c3_view_ignores_nullable Unit.unit
    ⟨("n"), ("n"), (""), ColumnType.Scalar InnerColumnType.Integer,
      false, ColumnSuggestion.NoSuggestions, false, []⟩
    [] ("s") ("s") ("") ("n") ("") rfl rfl rfl

/- ---------------------------------------------------------------
   Helper lemmas: IndexMap operations
   --------------------------------------------------------------- -/

/-- Keys of the empty map. -/
@[simp] lemma im_keys_nil : im_keys [] = [] := rfl

/-- Keys of a cons. -/
@[simp] lemma im_keys_cons (e : String × Value) (m : IndexMap) :
    im_keys (e :: m) = e.1 :: im_keys m := rfl

/-- Keys of an append. -/
lemma im_keys_append (m1 m2 : IndexMap) :
    im_keys (m1 ++ m2) = im_keys m1 ++ im_keys m2 := by
  simp [im_keys]

/-- The last entry of a list is one of its entries. -/
lemma mem_of_getLast_opt : ∀ (l : IndexMap) (a : String × Value),
    l.getLast? = Option.some a → a ∈ l
  | [], a, h => by simp at h
  | [x], a, h => by
    simp only [List.getLast?_singleton, Option.some.injEq] at h
    simp [h]
  | x :: y :: rest, a, h => by
    rw [List.getLast?_cons_cons] at h
    exact List.mem_cons_of_mem x (mem_of_getLast_opt (y :: rest) a h)

/-- Entries of `dropLast` are entries of the list. -/
lemma mem_of_mem_dropLast : ∀ (l : IndexMap) (x : String × Value),
    x ∈ l.dropLast → x ∈ l
  | [], _, h => by simp at h
  | [a], _, h => by simp [List.dropLast] at h
  | a :: b :: rest, x, h => by
    rw [List.dropLast_cons₂] at h
    rcases List.mem_cons.mp h with rfl | h1
    · exact List.mem_cons_self x (b :: rest)
    · exact List.mem_cons_of_mem a (mem_of_mem_dropLast (b :: rest) x h1)

/-- A successful `swap_remove_entry` only rearranges entries: every
entry of the output map is an entry of the input map. -/
lemma swap_remove_entry_mem_subset :
    ∀ (m : IndexMap) (k : String) (v : Value) (m1 : IndexMap),
      swap_remove_entry m k = Option.some (v, m1) → ∀ e ∈ m1, e ∈ m := by
  intro m
  induction m with
  | nil => intro k v m1 h; simp [swap_remove_entry] at h
  | cons a rest ih =>
    intro k v m1 h e he
    rw [swap_remove_entry] at h
    by_cases hk : a.1 == k
    · rw [if_pos hk] at h
      rcases hlast : rest.getLast? with _ | last
      · rw [hlast] at h
        cases Option.some.inj h
        simp at he
      · rw [hlast] at h
        cases Option.some.inj h
        rcases List.mem_cons.mp he with rfl | h1
        · exact List.mem_cons_of_mem a (mem_of_getLast_opt rest e hlast)
        · exact List.mem_cons_of_mem a (mem_of_mem_dropLast rest e h1)
    · rw [if_neg hk] at h
      rcases hrec : swap_remove_entry rest k with _ | p
      · rw [hrec] at h; cases h
      · rw [hrec] at h
        cases Option.some.inj h
        rcases List.mem_cons.mp he with rfl | h1
        · exact List.mem_cons_self e rest
        · exact List.mem_cons_of_mem a (ih k p.1 p.2 hrec e h1)

/-- Keys never grow under `swap_remove`. -/
lemma swap_remove_keys_subset (m : IndexMap) (k x : String)
    (h : x ∈ im_keys (swap_remove m k).2) : x ∈ im_keys m := by
  rw [swap_remove] at h
  rcases he : swap_remove_entry m k with _ | p
  · rw [he] at h; exact h
  · rw [he] at h
    rcases List.mem_map.mp h with ⟨e, hmem, rfl⟩
    exact List.mem_map.mpr ⟨e, swap_remove_entry_mem_subset m k p.1 p.2 he e hmem, rfl⟩

/-- A missing key makes `swap_remove_entry` miss. -/
lemma swap_remove_entry_none_of_not_mem :
    ∀ (m : IndexMap) (k : String), k ∉ im_keys m → swap_remove_entry m k = Option.none := by
  intro m
  induction m with
  | nil => intro k _; rfl
  | cons a rest ih =>
    intro k hk
    rw [swap_remove_entry]
    have ha : (a.1 == k) = false := by
      apply beq_eq_false_iff_ne.mpr
      intro heq
      exact hk (by simp [heq])
    rw [ha]
    simp only [Bool.false_eq_true, if_false]
    rw [ih k (fun hmem => hk (by simp [hmem]))]

/-- On a missing key `swap_remove` is the identity returning nothing. -/
lemma swap_remove_not_mem_eq (m : IndexMap) (k : String) (h : k ∉ im_keys m) :
    swap_remove m k = (Option.none, m) := by
  rw [swap_remove, swap_remove_entry_none_of_not_mem m k h]

/-- A missing `swap_remove_entry` means the key is absent. -/
lemma not_mem_of_swap_remove_entry_none :
    ∀ (m : IndexMap) (k : String), swap_remove_entry m k = Option.none → k ∉ im_keys m := by
  intro m
  induction m with
  | nil => intro k _ h; simp at h
  | cons a rest ih =>
    intro k h hk
    rw [swap_remove_entry] at h
    by_cases hak : a.1 == k
    · rw [if_pos hak] at h
      rcases rest.getLast? with _ | last <;> cases h
    · rw [if_neg hak] at h
      rcases hrec : swap_remove_entry rest k with _ | p
      · rcases List.mem_cons.mp hk with heq | hmem
        · exact hak (by simp [heq])
        · exact ih k hrec hmem
      · rw [hrec] at h; cases h

/-- Distinctness of an append-singleton is distinctness of the cons. -/
lemma nodup_of_append_singleton {α : Type} {xs : List α} {a : α}
    (h : (xs ++ [a]).Nodup) : (a :: xs).Nodup := by
  have h2 := (@List.nodup_middle α a xs []).mp (by simpa using h)
  simpa using h2

/-- Distinctness of a cons is distinctness of the append-singleton. -/
lemma append_singleton_nodup {α : Type} {xs : List α} {a : α}
    (h : (a :: xs).Nodup) : (xs ++ [a]).Nodup := by
  have h2 := (@List.nodup_middle α a xs []).mpr (by simpa using h)
  simpa using h2

/-- A successful `swap_remove_entry` with pairwise-distinct keys keeps
the keys pairwise distinct. -/
lemma swap_remove_entry_nodup :
    ∀ (m : IndexMap) (k : String) (v : Value) (m1 : IndexMap),
      (im_keys m).Nodup → swap_remove_entry m k = Option.some (v, m1) →
      (im_keys m1).Nodup := by
  intro m
  induction m with
  | nil => intro k v m1 _ h; simp [swap_remove_entry] at h
  | cons a rest ih =>
    intro k v m1 hnd h
    rw [swap_remove_entry] at h
    have hndrest : (im_keys rest).Nodup := (List.nodup_cons.mp hnd).2
    by_cases hk : a.1 == k
    · rw [if_pos hk] at h
      rcases hlast : rest.getLast? with _ | last
      · rw [hlast] at h
        cases Option.some.inj h
        simp
      · rw [hlast] at h
        cases Option.some.inj h
        have hsplit : rest.dropLast ++ [last] = rest :=
          List.dropLast_append_getLast? last hlast
        have : (im_keys (rest.dropLast ++ [last])).Nodup := by rw [hsplit]; exact hndrest
        rw [im_keys_append] at this
        have hmid := nodup_of_append_singleton this
        simpa using hmid
    · rw [if_neg hk] at h
      rcases hrec : swap_remove_entry rest k with _ | p
      · rw [hrec] at h; cases h
      · rw [hrec] at h
        cases Option.some.inj h
        rw [im_keys_cons]
        apply List.nodup_cons.mpr
        refine ⟨?_, ih k p.1 p.2 hndrest hrec⟩
        intro hmem
        have : a.1 ∈ im_keys rest := by
          rcases List.mem_map.mp hmem with ⟨e, hmem1, he⟩
          exact List.mem_map.mpr ⟨e, swap_remove_entry_mem_subset rest k p.1 p.2 hrec e hmem1, he⟩
        exact (List.nodup_cons.mp hnd).1 this

/-- `swap_remove` keeps keys pairwise distinct. -/
lemma swap_remove_nodup (m : IndexMap) (k : String) (hnd : (im_keys m).Nodup) :
    (im_keys (swap_remove m k).2).Nodup := by
  rw [swap_remove]
  rcases he : swap_remove_entry m k with _ | p
  · exact hnd
  · exact swap_remove_entry_nodup m k p.1 p.2 hnd he

/-- With pairwise-distinct keys, the removed key is absent from a
successful `swap_remove_entry`'s output. -/
lemma swap_remove_entry_key_gone :
    ∀ (m : IndexMap) (k : String) (v : Value) (m1 : IndexMap),
      (im_keys m).Nodup → swap_remove_entry m k = Option.some (v, m1) →
      k ∉ im_keys m1 := by
  intro m
  induction m with
  | nil => intro k v m1 _ h; simp [swap_remove_entry] at h
  | cons a rest ih =>
    intro k v m1 hnd h hk
    rw [swap_remove_entry] at h
    have hndrest : (im_keys rest).Nodup := (List.nodup_cons.mp hnd).2
    by_cases hak : a.1 == k
    · rw [if_pos hak] at h
      have hkey : a.1 = k := eq_of_beq hak
      have hnotin : a.1 ∉ im_keys rest := (List.nodup_cons.mp hnd).1
      rcases hlast : rest.getLast? with _ | last
      · rw [hlast] at h
        cases Option.some.inj h
        simp at hk
      · rw [hlast] at h
        cases Option.some.inj h
        rcases List.mem_cons.mp hk with heq | hmem
        · apply hnotin
          rw [hkey, heq]
          exact List.mem_map.mpr ⟨last, mem_of_getLast_opt rest last hlast, rfl⟩
        · apply hnotin
          rw [hkey]
          rcases List.mem_map.mp hmem with ⟨e, hmem1, he⟩
          exact List.mem_map.mpr ⟨e, mem_of_mem_dropLast rest e hmem1, he⟩
    · rw [if_neg hak] at h
      rcases hrec : swap_remove_entry rest k with _ | p
      · rw [hrec] at h; cases h
      · rw [hrec] at h
        cases Option.some.inj h
        rcases List.mem_cons.mp hk with heq | hmem
        · exact hak (by simp [heq])
        · exact ih k p.1 p.2 hndrest hrec hmem

/-- With pairwise-distinct keys, a key is gone after its `swap_remove`. -/
lemma swap_remove_key_gone (m : IndexMap) (k : String) (hnd : (im_keys m).Nodup) :
    k ∉ im_keys (swap_remove m k).2 := by
  rw [swap_remove]
  rcases he : swap_remove_entry m k with _ | p
  · exact not_mem_of_swap_remove_entry_none m k he
  · exact swap_remove_entry_key_gone m k p.1 p.2 hnd he

/-- Keys of `insert_key` are the old keys plus possibly the new key. -/
lemma insert_key_keys_subset (m : IndexMap) (k : String) (v : Value) (x : String)
    (h : x ∈ im_keys (insert_key m k v)) : x ∈ im_keys m ∨ x = k := by
  rw [insert_key] at h
  by_cases hany : m.any (fun e => e.1 == k)
  · rw [if_pos hany] at h
    rw [im_keys, List.map_map] at h
    rcases List.mem_map.mp h with ⟨e, hmem, he⟩
    by_cases hek : e.1 == k
    · right
      rw [← he]
      simp only [Function.comp_apply]
      rw [if_pos hek]
    · left
      refine List.mem_map.mpr ⟨e, hmem, ?_⟩
      rw [← he]
      simp only [Function.comp_apply]
      rw [if_neg (by simpa using hek)]
  · rw [if_neg hany] at h
    rw [im_keys_append] at h
    rcases List.mem_append.mp h with h1 | h1
    · exact Or.inl h1
    · right; simpa using h1

/-- `insert_key` keeps keys pairwise distinct. -/
lemma insert_key_nodup (m : IndexMap) (k : String) (v : Value)
    (hnd : (im_keys m).Nodup) : (im_keys (insert_key m k v)).Nodup := by
  rw [insert_key]
  by_cases hany : m.any (fun e => e.1 == k)
  · rw [if_pos hany]
    have hkeys : im_keys (m.map (fun e => if e.1 == k then (k, v) else e)) = im_keys m := by
      rw [im_keys, im_keys, List.map_map]
      apply List.map_congr_left
      intro e _
      by_cases hek : e.1 == k
      · simp only [Function.comp_apply, if_pos hek]
        exact (eq_of_beq hek).symm
      · simp only [Function.comp_apply, if_neg hek]
    rw [hkeys]
    exact hnd
  · rw [if_neg hany]
    rw [im_keys_append]
    have hnotin : k ∉ im_keys m := by
      intro hmem
      apply hany
      rcases List.mem_map.mp hmem with ⟨e, hmem1, he⟩
      exact List.any_eq_true.mpr ⟨e, hmem1, by simp [he]⟩
    exact append_singleton_nodup (List.nodup_cons.mpr ⟨hnotin, hnd⟩)

/- ---------------------------------------------------------------
   Helper lemmas: the orchestrator loops
   --------------------------------------------------------------- -/

/-- Every output of a successful `map_except` comes from an input. -/
lemma map_except_ok_mem {α β ε : Type} (f : α → Except ε β) :
    ∀ (l : List α) (ys : List β), map_except f l = Except.ok ys →
      ∀ y ∈ ys, ∃ x ∈ l, f x = Except.ok y := by
  intro l
  induction l with
  | nil =>
    intro ys h y hy
    rw [map_except] at h
    cases Except.ok.inj h
    cases hy
  | cons x xs ih =>
    intro ys h y hy
    rw [map_except] at h
    rcases hf : f x with e | z
    · rw [hf] at h; cases h
    · rw [hf] at h
      rcases hrec : map_except f xs with e | zs
      · rw [hrec] at h; cases h
      · rw [hrec] at h
        cases Except.ok.inj h
        rcases List.mem_cons.mp hy with rfl | hmem
        · exact ⟨x, List.mem_cons_self x xs, hf⟩
        · rcases ih zs hrec y hmem with ⟨x1, hx1, hfx1⟩
          exact ⟨x1, List.mem_cons_of_mem x hx1, hfx1⟩

/-- The view coercion loop keeps keys pairwise distinct. -/
lemma view_coerce_row_nodup :
    ∀ (columns : List Column) (s s1 : IndexMap), (im_keys s).Nodup →
      view_coerce_row columns s = Except.ok s1 → (im_keys s1).Nodup := by
  intro columns
  induction columns with
  | nil =>
    intro s s1 hnd h
    rw [view_coerce_row] at h
    cases Except.ok.inj h
    exact hnd
  | cons col rest ih =>
    intro s s1 hnd h
    rw [view_coerce_row] at h
    rcases hp : parse_value ((swap_remove s col.id).1.getD Value.none) col.column_type col.id with e | val
    · rw [hp] at h; cases h
    · rw [hp] at h
      exact ih (insert_key (swap_remove s col.id).2 col.id val) s1
        (insert_key_nodup (swap_remove s col.id).2 col.id val
          (swap_remove_nodup s col.id hnd)) h

/-- The stripping loop never adds a key. -/
lemma view_strip_row_keys_subset :
    ∀ (columns : List Column) (s : IndexMap) (x : String),
      x ∈ im_keys (view_strip_row columns s) → x ∈ im_keys s := by
  intro columns
  induction columns with
  | nil => intro s x h; exact h
  | cons col rest ih =>
    intro s x h
    rw [view_strip_row] at h
    by_cases hs : col.secret
    · rw [if_pos hs] at h
      exact swap_remove_keys_subset s col.id x (ih _ x h)
    · rw [if_neg hs] at h
      by_cases hi : col.ignored_for.contains OperationType.View
      · rw [if_pos hi] at h
        exact swap_remove_keys_subset s col.id x (ih _ x h)
      · rw [if_neg hi] at h
        exact ih s x h

/-- After the stripping loop, the key of every secret or
ignored-for-View column of the processed list is gone (given
pairwise-distinct keys, as indexmap guarantees). -/
lemma view_strip_row_removes :
    ∀ (columns : List Column) (s : IndexMap), (im_keys s).Nodup →
      ∀ c ∈ columns, (c.secret = true ∨ c.ignored_for.contains OperationType.View = true) →
      c.id ∉ im_keys (view_strip_row columns s) := by
  intro columns
  induction columns with
  | nil => intro s _ c hc; cases hc
  | cons col rest ih =>
    intro s hnd c hc hflag hmem
    rw [view_strip_row] at hmem
    rcases List.mem_cons.mp hc with rfl | hcrest
    · rcases hflag with hs | hi
      · rw [if_pos hs] at hmem
        exact swap_remove_key_gone s c.id hnd
          (view_strip_row_keys_subset rest _ c.id hmem)
      · by_cases hs : c.secret
        · rw [if_pos hs] at hmem
          exact swap_remove_key_gone s c.id hnd
            (view_strip_row_keys_subset rest _ c.id hmem)
        · rw [if_neg hs, if_pos hi] at hmem
          exact swap_remove_key_gone s c.id hnd
            (view_strip_row_keys_subset rest _ c.id hmem)
    · by_cases hs : col.secret
      · rw [if_pos hs] at hmem
        exact ih _ (swap_remove_nodup s col.id hnd) c hcrest hflag hmem
      · rw [if_neg hs] at hmem
        by_cases hi : col.ignored_for.contains OperationType.View
        · rw [if_pos hi] at hmem
          exact ih _ (swap_remove_nodup s col.id hnd) c hcrest hflag hmem
        · rw [if_neg hi] at hmem
          exact ih s hnd c hcrest hflag hmem

/- ---------------------------------------------------------------
   Claim C8
   --------------------------------------------------------------- -/

/-- C8: for every successful view call — any schema, any backend
result (with the pairwise-distinct keys an IndexMap guarantees) — no
returned row contains the key of a secret column or of a column whose
ignored_for contains View, regardless of the values the backend
returned for those columns. -/
theorem c8_view_strips_secret_and_ignored {T : Type} (data : T)
    (viewer : T → IndexMap → Except SettingsError (List IndexMap))
    (filters : IndexMap) (columns : List Column)
    (sid sname sdesc spk stt : String)
    (states : List IndexMap)
    (hviewer : viewer data filters = Except.ok states)
    (hnodup : ∀ s ∈ states, (im_keys s).Nodup)
    (rows : List IndexMap)
    (hok : settings_view
      { id := sid, name := sname, description := sdesc, primary_key := spk,
        title_template := stt, columns := columns,
        operations := ⟨Option.some viewer, Option.none, Option.none, Option.none⟩ }
      data filters = Except.ok rows)
    (row : IndexMap) (hrow : row ∈ rows)
    (c : Column) (hc : c ∈ columns)
    (hflag : c.secret = true ∨ c.ignored_for.contains OperationType.View = true) :
    c.id ∉ im_keys row := by
  rw [show settings_view
      { id := sid, name := sname, description := sdesc, primary_key := spk,
        title_template := stt, columns := columns,
        operations := ⟨Option.some viewer, Option.none, Option.none, Option.none⟩ }
      data filters
    = (match viewer data filters with
       | Except.error e => Except.error e
       | Except.ok states =>
         map_except
           (fun state =>
             match view_coerce_row columns state with
             | Except.error e => Except.error e
             | Except.ok coerced => Except.ok (view_strip_row columns coerced)) states) from rfl,
    hviewer] at hok
  rcases map_except_ok_mem _ states rows hok row hrow with ⟨s, hs, hsrow⟩
  rcases hco : view_coerce_row columns s with e | coerced
  · rw [hco] at hsrow; cases hsrow
  · rw [hco] at hsrow
    cases Except.ok.inj hsrow
    exact view_strip_row_removes columns coerced
      (view_coerce_row_nodup columns s coerced (hnodup s hs) hco) c hc hflag

/-- C8 witness: a concrete two-column schema (one secret column, one
ignored-for-View column, one plain column) with a backend row carrying
values for all three — the theorem applied there shows the secret key
is absent from the returned row. -/
theorem c8_view_strips_secret_and_ignored_witness :
    ("sec" : String) ∉ im_keys [(("a"), Value.str ("z"))] :=
  c8_view_strips_secret_and_ignored Unit.unit
    (fun _ _ => Except.ok [[(("sec"), Value.str ("x")), (("a"), Value.str ("z"))]])
    [] [⟨("sec"), ("sec"), (""), ColumnType.Scalar (InnerColumnType.Str Option.none Option.none [] ("")),
          true, ColumnSuggestion.NoSuggestions, true, []⟩,
        ⟨("a"), ("a"), (""), ColumnType.Scalar (InnerColumnType.Str Option.none Option.none [] ("")),
          true, ColumnSuggestion.NoSuggestions, false, []⟩]
    ("s") ("s") ("") ("a") ("")
    [[(("sec"), Value.str ("x")), (("a"), Value.str ("z"))]]
    rfl
    (by intro s hs
        simp only [List.mem_singleton] at hs
        rw [hs]
        decide)
    [[(("a"), Value.str ("z"))]]
    rfl
    [(("a"), Value.str ("z"))]
    (List.mem_singleton.mpr rfl)
    ⟨("sec"), ("sec"), (""), ColumnType.Scalar (InnerColumnType.Str Option.none Option.none [] ("")),
      true, ColumnSuggestion.NoSuggestions, true, []⟩
    (List.mem_cons_self _ _)
    (Or.inl rfl)

/- ---------------------------------------------------------------
   Claim C2
   --------------------------------------------------------------- -/

/-- The create coercion loop processes an appended column list in two
stages. -/
lemma create_coerce_columns_append :
    ∀ (l1 l2 : List Column) (s : IndexMap),
      create_coerce_columns (l1 ++ l2) s
        = (match create_coerce_columns l1 s with
           | Except.error e => Except.error e
           | Except.ok s1 => create_coerce_columns l2 s1) := by
  intro l1
  induction l1 with
  | nil => intro l2 s; rfl
  | cons col rest ih =>
    intro l2 s
    rw [List.cons_append, create_coerce_columns, create_coerce_columns]
    by_cases hi : col.ignored_for.contains OperationType.Create
    · rw [if_pos hi, if_pos hi]
      exact ih l2 s
    · rw [if_neg hi, if_neg hi]
      show (match parse_value ((swap_remove s col.id).1.getD Value.none) col.column_type col.id with
        | Except.error e => Except.error e
        | Except.ok parsed =>
          match validate_value parsed col.column_type col.id col.nullable with
          | Except.error e => Except.error e
          | Except.ok value => create_coerce_columns (rest ++ l2) (insert_key (swap_remove s col.id).2 col.id value))
        = (match (match parse_value ((swap_remove s col.id).1.getD Value.none) col.column_type col.id with
            | Except.error e => Except.error e
            | Except.ok parsed =>
              match validate_value parsed col.column_type col.id col.nullable with
              | Except.error e => Except.error e
              | Except.ok value => create_coerce_columns rest (insert_key (swap_remove s col.id).2 col.id value)) with
          | Except.error e => Except.error e
          | Except.ok s1 => create_coerce_columns l2 s1)
      rcases hp : parse_value ((swap_remove s col.id).1.getD Value.none) col.column_type col.id with e | parsed
      · rfl
      · show (match validate_value parsed col.column_type col.id col.nullable with
          | Except.error e => Except.error e
          | Except.ok value => create_coerce_columns (rest ++ l2) (insert_key (swap_remove s col.id).2 col.id value))
          = (match (match validate_value parsed col.column_type col.id col.nullable with
              | Except.error e => Except.error e
              | Except.ok value => create_coerce_columns rest (insert_key (swap_remove s col.id).2 col.id value)) with
            | Except.error e => Except.error e
            | Except.ok s1 => create_coerce_columns l2 s1)
        rcases hv : validate_value parsed col.column_type col.id col.nullable with e | value
        · rfl
        · exact ih l2 (insert_key (swap_remove s col.id).2 col.id value)

/-- The create coercion loop only ever adds keys that are processed
column ids: every key of its output is a key of the input or the id of
a listed column. -/
lemma create_coerce_columns_keys_subset :
    ∀ (columns : List Column) (s s1 : IndexMap),
      create_coerce_columns columns s = Except.ok s1 →
      ∀ x ∈ im_keys s1, x ∈ im_keys s ∨ ∃ p ∈ columns, x = p.id := by
  intro columns
  induction columns with
  | nil =>
    intro s s1 h x hx
    rw [create_coerce_columns] at h
    cases Except.ok.inj h
    exact Or.inl hx
  | cons col rest ih =>
    intro s s1 h x hx
    rw [create_coerce_columns] at h
    by_cases hi : col.ignored_for.contains OperationType.Create
    · rw [if_pos hi] at h
      rcases ih s s1 h x hx with h1 | ⟨p, hp, hxp⟩
      · exact Or.inl h1
      · exact Or.inr ⟨p, List.mem_cons_of_mem col hp, hxp⟩
    · rw [if_neg hi] at h
      replace h : (match parse_value ((swap_remove s col.id).1.getD Value.none) col.column_type col.id with
        | Except.error e => Except.error e
        | Except.ok parsed =>
          match validate_value parsed col.column_type col.id col.nullable with
          | Except.error e => Except.error e
          | Except.ok value => create_coerce_columns rest (insert_key (swap_remove s col.id).2 col.id value))
        = Except.ok s1 := h
      rcases hp : parse_value ((swap_remove s col.id).1.getD Value.none) col.column_type col.id with e | parsed
      · rw [hp] at h; cases h
      · rw [hp] at h
        replace h : (match validate_value parsed col.column_type col.id col.nullable with
          | Except.error e => Except.error e
          | Except.ok value => create_coerce_columns rest (insert_key (swap_remove s col.id).2 col.id value))
          = Except.ok s1 := h
        rcases hv : validate_value parsed col.column_type col.id col.nullable with e | value
        · rw [hv] at h; cases h
        · rw [hv] at h
          replace h : create_coerce_columns rest (insert_key (swap_remove s col.id).2 col.id value) = Except.ok s1 := h
          rcases ih _ s1 h x hx with h1 | ⟨p, hmem, hxp⟩
          · rcases insert_key_keys_subset _ col.id value x h1 with h2 | h2
            · exact Or.inl (swap_remove_keys_subset s col.id x h2)
            · exact Or.inr ⟨col, List.mem_cons_self col rest, h2⟩
          · exact Or.inr ⟨p, List.mem_cons_of_mem col hmem, hxp⟩

/-- C2 (amended): for every Setting with a create backend, when the
input mapping omits a non-ignored, non-nullable column (and the columns
before it coerce successfully), create fails — but with the
`SchemaNullValueValidationError` naming that column, raised by
`_validate_value` inside the per-column coercion pass; the re-scan's
`MissingOrInvalidField` is not reached. -/
theorem c2_create_missing_nonnullable_is_null_error {T : Type} (data : T)
    (creator : T → IndexMap → Except SettingsError IndexMap)
    (fields : IndexMap) (pre post : List Column) (c : Column)
    (sid sname sdesc spk stt : String)
    (hign : c.ignored_for.contains OperationType.Create = false)
    (hnull : c.nullable = false)
    (hmiss : c.id ∉ im_keys fields)
    (hpre : ∀ p ∈ pre, p.id ≠ c.id)
    (hparse : parse_value Value.none c.column_type c.id = Except.ok Value.none)
    (s1 : IndexMap)
    (hcoerce : create_coerce_columns pre fields = Except.ok s1) :
    settings_create
      { id := sid, name := sname, description := sdesc, primary_key := spk,
        title_template := stt, columns := pre ++ c :: post,
        operations := ⟨Option.none, Option.some creator, Option.none, Option.none⟩ }
      data fields
      = Except.error (SettingsError.SchemaNullValueValidationError c.id) := by
  have habs : c.id ∉ im_keys s1 := by
    intro hmem
    rcases create_coerce_columns_keys_subset pre fields s1 hcoerce c.id hmem with h1 | ⟨p, hp, hcp⟩
    · exact hmiss h1
    · exact hpre p hp hcp.symm
  have hstep : create_coerce_columns (c :: post) s1
      = Except.error (SettingsError.SchemaNullValueValidationError c.id) := by
    show (if c.ignored_for.contains OperationType.Create = true then create_coerce_columns post s1
      else (match parse_value ((swap_remove s1 c.id).1.getD Value.none) c.column_type c.id with
        | Except.error e => Except.error e
        | Except.ok parsed =>
          match validate_value parsed c.column_type c.id c.nullable with
          | Except.error e => Except.error e
          | Except.ok value => create_coerce_columns post (insert_key (swap_remove s1 c.id).2 c.id value)))
      = Except.error (SettingsError.SchemaNullValueValidationError c.id)
    rw [hign]
    simp only [Bool.false_eq_true, if_false]
    rw [swap_remove_not_mem_eq s1 c.id habs]
    show (match parse_value Value.none c.column_type c.id with
      | Except.error e => Except.error e
      | Except.ok parsed =>
        match validate_value parsed c.column_type c.id c.nullable with
        | Except.error e => Except.error e
        | Except.ok value => create_coerce_columns post (insert_key s1 c.id value))
      = Except.error (SettingsError.SchemaNullValueValidationError c.id)
    rw [hparse]
    show (match validate_value Value.none c.column_type c.id c.nullable with
      | Except.error e => Except.error e
      | Except.ok value => create_coerce_columns post (insert_key s1 c.id value))
      = Except.error (SettingsError.SchemaNullValueValidationError c.id)
    rw [hnull, validate_value_none_not_nullable c.column_type c.id]
  rw [show settings_create
      { id := sid, name := sname, description := sdesc, primary_key := spk,
        title_template := stt, columns := pre ++ c :: post,
        operations := ⟨Option.none, Option.some creator, Option.none, Option.none⟩ }
      data fields
    = (match create_coerce_columns (pre ++ c :: post) fields with
       | Except.error e => Except.error e
       | Except.ok state =>
         match create_null_checks (pre ++ c :: post) state with
         | Except.error e => Except.error e
         | Except.ok _ => creator data (create_strip_ignored (pre ++ c :: post) state)) from rfl]
  rw [create_coerce_columns_append, hcoerce]
  show (match create_coerce_columns (c :: post) s1 with
    | Except.error e => Except.error e
    | Except.ok state =>
      match create_null_checks (pre ++ c :: post) state with
      | Except.error e => Except.error e
      | Except.ok _ => creator data (create_strip_ignored (pre ++ c :: post) state))
    = Except.error (SettingsError.SchemaNullValueValidationError c.id)
  rw [hstep]

/-- C2 witness: the amended theorem applied at the spec's example
schema (`id` ignored for Create and non-null, `name` a non-null String,
`count` a nullable Integer) with the empty input mapping. -/
theorem c2_create_missing_nonnullable_is_null_error_witness :
    settings_create
      { id := ("s"), name := ("s"), description := (""), primary_key := ("id"),
        title_template := (""),
        columns := [⟨("id"), ("id"), (""),
            ColumnType.Scalar (InnerColumnType.Str Option.none Option.none [] ("")),
            false, ColumnSuggestion.NoSuggestions, false, [OperationType.Create]⟩]
          ++ ⟨("name"), ("name"), (""),
              ColumnType.Scalar (InnerColumnType.Str Option.none Option.none [] ("")),
              false, ColumnSuggestion.NoSuggestions, false, []⟩
            :: [⟨("count"), ("count"), (""), ColumnType.Scalar InnerColumnType.Integer,
              true, ColumnSuggestion.NoSuggestions, false, []⟩],
        operations := ⟨Option.none, Option.some (fun _ s => Except.ok s), Option.none, Option.none⟩ }
      Unit.unit []
      = Except.error (SettingsError.SchemaNullValueValidationError ("name")) :=
  c2_create_missing_nonnullable_is_null_error Unit.unit (fun _ s => Except.ok s) []
    [⟨("id"), ("id"), (""),
        ColumnType.Scalar (InnerColumnType.Str Option.none Option.none [] ("")),
        false, ColumnSuggestion.NoSuggestions, false, [OperationType.Create]⟩]
    [⟨("count"), ("count"), (""), ColumnType.Scalar InnerColumnType.Integer,
        true, ColumnSuggestion.NoSuggestions, false, []⟩]
    ⟨("name"), ("name"), (""),
      ColumnType.Scalar (InnerColumnType.Str Option.none Option.none [] ("")),
      false, ColumnSuggestion.NoSuggestions, false, []⟩
    ("s") ("s") ("") ("id") ("") rfl rfl (by simp) (by decide) rfl [] rfl

/-- C2 counterexample: at the spec's own example schema with the input
omitting `name`, create fails with `SchemaNullValueValidationError`
from the coercion pass — not with `MissingOrInvalidField` from the
re-scan as the claim states. -/
theorem c2_create_missing_nonnullable_counterexample :
    settings_create
      { id := ("s"), name := ("s"), description := (""), primary_key := ("id"),
        title_template := (""),
        columns := [⟨("id"), ("id"), (""),
            ColumnType.Scalar (InnerColumnType.Str Option.none Option.none [] ("")),
            false, ColumnSuggestion.NoSuggestions, false, [OperationType.Create]⟩,
          ⟨("name"), ("name"), (""),
            ColumnType.Scalar (InnerColumnType.Str Option.none Option.none [] ("")),
            false, ColumnSuggestion.NoSuggestions, false, []⟩,
          ⟨("count"), ("count"), (""), ColumnType.Scalar InnerColumnType.Integer,
            true, ColumnSuggestion.NoSuggestions, false, []⟩],
        operations := ⟨Option.none, Option.some (fun _ s => Except.ok s), Option.none, Option.none⟩ }
      Unit.unit []
      = Except.error (SettingsError.SchemaNullValueValidationError ("name"))
    ∧ settings_create
      { id := ("s"), name := ("s"), description := (""), primary_key := ("id"),
        title_template := (""),
        columns := [⟨("id"), ("id"), (""),
            ColumnType.Scalar (InnerColumnType.Str Option.none Option.none [] ("")),
            false, ColumnSuggestion.NoSuggestions, false, [OperationType.Create]⟩,
          ⟨("name"), ("name"), (""),
            ColumnType.Scalar (InnerColumnType.Str Option.none Option.none [] ("")),
            false, ColumnSuggestion.NoSuggestions, false, []⟩,
          ⟨("count"), ("count"), (""), ColumnType.Scalar InnerColumnType.Integer,
            true, ColumnSuggestion.NoSuggestions, false, []⟩],
        operations := ⟨Option.none, Option.some (fun _ s => Except.ok s), Option.none, Option.none⟩ }
      Unit.unit []
      ≠ Except.error (SettingsError.MissingOrInvalidField ("name") ("settings_create [null check]")) := by
  constructor
  · rfl
  · intro h
    rw [show settings_create
        { id := ("s"), name := ("s"), description := (""), primary_key := ("id"),
          title_template := (""),
          columns := [⟨("id"), ("id"), (""),
              ColumnType.Scalar (InnerColumnType.Str Option.none Option.none [] ("")),
              false, ColumnSuggestion.NoSuggestions, false, [OperationType.Create]⟩,
            ⟨("name"), ("name"), (""),
              ColumnType.Scalar (InnerColumnType.Str Option.none Option.none [] ("")),
              false, ColumnSuggestion.NoSuggestions, false, []⟩,
            ⟨("count"), ("count"), (""), ColumnType.Scalar InnerColumnType.Integer,
              true, ColumnSuggestion.NoSuggestions, false, []⟩],
          operations := ⟨Option.none, Option.some (fun _ s => Except.ok s), Option.none, Option.none⟩ }
        Unit.unit []
      = Except.error (SettingsError.SchemaNullValueValidationError ("name")) from rfl] at h
    simp at h

end AntiRaid
